import Mathlib

/-!
Shallow embedding, in Lean 4, of the core simulation code of the
ai_entities repository (an artificial-life ecosystem simulation written
in Python), together with theorems settling a list of behavioural claims
about it.

Conventions used throughout the embedding:

* Python floats are modelled as rationals; every arithmetic operation of
  the source is reproduced exactly over the rationals.
* The source frequently computes a Euclidean distance with a square root
  and then either compares it with a threshold or sorts by it.  Since the
  square root is strictly monotone on nonnegative reals, every such
  comparison is embedded square-free: x.distance_to(y) <= r becomes
  distSq x y <= r * r, and sorting by distance becomes sorting by squared
  distance.  Embedded query results therefore carry the squared distance.
* Python dictionaries that are only iterated in insertion order are
  modelled as association lists in that order.
* uuid identifiers are modelled as natural numbers.
-/

/-! ## Spatial grid (src/core/world.py, class SpatialGrid) -/

/-- An object stored in the spatial grid: identifier, position, alive flag.
Both plants and entities are stored this way; the fields other than these
three play no role in the grid code. -/
structure GObj where
  id : Nat
  x : Rat
  y : Rat
  alive : Bool
  deriving Repr, DecidableEq

/-- Squared Euclidean distance between two points, written exactly as the
query code computes it: dx*dx + dy*dy with dx = ox - px, dy = oy - py. -/
def distSq (px py ox oy : Rat) : Rat :=
  (ox - px) * (ox - px) + (oy - py) * (oy - py)

/-- Construction parameters of SpatialGrid.__init__. -/
structure SpatialGrid where
  world_width : Rat
  world_height : Rat
  cell_size : Rat
  deriving Repr

/-- grid_width = int(math.ceil(world_width / cell_size)). -/
def SpatialGrid.grid_width (g : SpatialGrid) : Int :=
  ⌈g.world_width / g.cell_size⌉

/-- grid_height = int(math.ceil(world_height / cell_size)). -/
def SpatialGrid.grid_height (g : SpatialGrid) : Int :=
  ⌈g.world_height / g.cell_size⌉

/-- Clamp an integer to [lo, hi], as max(lo, min(v, hi)). -/
def clampI (v lo hi : Int) : Int := max lo (min v hi)

/-- SpatialGrid._get_cell: floor-divide each coordinate by the cell size
and clamp into the grid bounds. -/
def SpatialGrid.getCell (g : SpatialGrid) (px py : Rat) : Int × Int :=
  (clampI ⌊px / g.cell_size⌋ 0 (g.grid_width - 1),
   clampI ⌊py / g.cell_size⌋ 0 (g.grid_height - 1))

/-- The integer interval [a, b) as a list, modelling Python range(a, b). -/
def intRange (a b : Int) : List Int :=
  (List.range (b - a).toNat).map (fun (i : Nat) => a + (i : Int))

/-- Local cell_radius = int(math.ceil(radius / cell_size)) of
SpatialGrid._get_nearby_cells. -/
def SpatialGrid.cellRadius (g : SpatialGrid) (radius : Rat) : Int :=
  ⌈radius / g.cell_size⌉

/-- SpatialGrid._get_nearby_cells: all in-bounds cells whose cell
coordinates differ from the query cell by at most cell_radius in each
axis (the source binds the locals cell_radius, gx, gy, nx, ny; they are
written out here). -/
def SpatialGrid.nearbyCells (g : SpatialGrid) (px py radius : Rat) :
    List (Int × Int) :=
  (intRange (-(g.cellRadius radius)) (g.cellRadius radius + 1)).flatMap (fun dx =>
    (intRange (-(g.cellRadius radius)) (g.cellRadius radius + 1)).filterMap (fun dy =>
      if 0 ≤ (g.getCell px py).1 + dx ∧ (g.getCell px py).1 + dx < g.grid_width ∧
         0 ≤ (g.getCell px py).2 + dy ∧ (g.getCell px py).2 + dy < g.grid_height then
        some ((g.getCell px py).1 + dx, (g.getCell px py).2 + dy)
      else none))

/-- Contents of one grid cell after inserting the objects of objs in
order: add_plant / add_entity append each object to the list of the cell
computed by _get_cell, so a cell holds, in insertion order, exactly the
objects whose clamped cell is that cell. -/
def SpatialGrid.cellObjects (g : SpatialGrid) (objs : List GObj)
    (cell : Int × Int) : List GObj :=
  objs.filter (fun o => g.getCell o.x o.y = cell)

/-- The per-object body of the query loops: skip the excluded id, skip
dead objects, keep (object, squared distance) when the squared distance
is within radius squared.  The source pairs the object with
dist = dist_sq ** 0.5; we carry dist_sq (see the header). -/
def keepObj (excludeId : Option Nat) (px py radius : Rat) (o : GObj) :
    Option (GObj × Rat) :=
  if excludeId = some o.id then none
  else if o.alive = false then none
  else
    let dsq := distSq px py o.x o.y
    if dsq ≤ radius * radius then some (o, dsq) else none

/-- Comparison used for the final sort: by (squared) distance. -/
def leDist (a b : GObj × Rat) : Bool := a.2 ≤ b.2

/-- Common body of SpatialGrid.get_plants_in_radius and
SpatialGrid.get_entities_in_radius (the two methods are identical except
that only the entity variant takes an exclude_id): visit the nearby
cells, filter each cell's objects, and sort the candidates by distance
ascending. -/
def SpatialGrid.queryRadius (g : SpatialGrid) (objs : List GObj)
    (px py radius : Rat) (excludeId : Option Nat) : List (GObj × Rat) :=
  ((g.nearbyCells px py radius).flatMap (fun cell =>
    (g.cellObjects objs cell).filterMap (keepObj excludeId px py radius))).mergeSort
    leDist

/-- SpatialGrid.get_plants_in_radius on a grid holding the plants objs. -/
def SpatialGrid.get_plants_in_radius (g : SpatialGrid) (objs : List GObj)
    (px py radius : Rat) : List (GObj × Rat) :=
  g.queryRadius objs px py radius none

/-- SpatialGrid.get_entities_in_radius on a grid holding the entities
objs (exclude_id defaults to None). -/
def SpatialGrid.get_entities_in_radius (g : SpatialGrid) (objs : List GObj)
    (px py radius : Rat) (excludeId : Option Nat) : List (GObj × Rat) :=
  g.queryRadius objs px py radius excludeId

/-! ### Correctness of the spatial query (claim C1) -/

theorem mem_intRange {a b v : Int} : v ∈ intRange a b ↔ a ≤ v ∧ v < b := by
  unfold intRange
  rw [List.mem_map]
  constructor
  · rintro ⟨i, hi, rfl⟩
    rw [List.mem_range] at hi
    omega
  · rintro ⟨h1, h2⟩
    refine ⟨(v - a).toNat, ?_, ?_⟩
    · rw [List.mem_range]
      omega
    · omega

theorem abs_le_of_mul_self_le {x r : ℚ} (hr : 0 ≤ r) (h : x * x ≤ r * r) :
    |x| ≤ r := by
  nlinarith [abs_nonneg x, abs_mul_abs_self x]

theorem floor_div_dist_le {q o c r : ℚ} (hc : 0 < c) (hr : 0 ≤ r)
    (h1 : o - q ≤ r) (h2 : q - o ≤ r) :
    ⌊o / c⌋ - ⌊q / c⌋ ≤ ⌈r / c⌉ ∧ ⌊q / c⌋ - ⌊o / c⌋ ≤ ⌈r / c⌉ := by
  have key : ∀ x y : ℚ, x - y ≤ r → ⌊x / c⌋ - ⌊y / c⌋ ≤ ⌈r / c⌉ := by
    intro x y hxy
    have hdiv : x / c ≤ y / c + r / c := by
      rw [div_add_div_same]
      gcongr
      linarith
    have hceil : x / c ≤ y / c + (⌈r / c⌉ : ℚ) := by
      have := Int.le_ceil (r / c)
      linarith
    have := Int.floor_le_floor hceil
    rw [Int.floor_add_int] at this
    omega
  exact ⟨key o q h1, key q o h2⟩

theorem clampI_dist {a b k lo hi : Int} (h1 : a - b ≤ k) (h2 : b - a ≤ k) :
    clampI a lo hi - clampI b lo hi ≤ k ∧ clampI b lo hi - clampI a lo hi ≤ k := by
  simp only [clampI]
  omega

theorem clampI_bounds {v lo hi : Int} (h : lo ≤ hi) :
    lo ≤ clampI v lo hi ∧ clampI v lo hi ≤ hi := by
  simp only [clampI]
  omega

theorem mem_nearbyCells_iff (g : SpatialGrid) {px py radius : ℚ}
    {cell : Int × Int} :
    cell ∈ g.nearbyCells px py radius ↔
      ((g.getCell px py).1 - g.cellRadius radius ≤ cell.1 ∧
       cell.1 ≤ (g.getCell px py).1 + g.cellRadius radius ∧
       (g.getCell px py).2 - g.cellRadius radius ≤ cell.2 ∧
       cell.2 ≤ (g.getCell px py).2 + g.cellRadius radius ∧
       0 ≤ cell.1 ∧ cell.1 < g.grid_width ∧
       0 ≤ cell.2 ∧ cell.2 < g.grid_height) := by
  obtain ⟨c1, c2⟩ := cell
  unfold SpatialGrid.nearbyCells
  rw [List.mem_flatMap]
  constructor
  · rintro ⟨dx, hdx, hcell⟩
    rw [mem_intRange] at hdx
    rw [List.mem_filterMap] at hcell
    obtain ⟨dy, hdy, hsome⟩ := hcell
    rw [mem_intRange] at hdy
    rw [Option.ite_none_right_eq_some, Option.some.injEq, Prod.mk.injEq] at hsome
    obtain ⟨⟨b1, b2, b3, b4⟩, e1, e2⟩ := hsome
    dsimp only at *
    omega
  · rintro ⟨h1, h2, h3, h4, h5, h6, h7, h8⟩
    dsimp only at *
    refine ⟨c1 - (g.getCell px py).1, ?_, ?_⟩
    · rw [mem_intRange]
      omega
    · rw [List.mem_filterMap]
      refine ⟨c2 - (g.getCell px py).2, ?_, ?_⟩
      · rw [mem_intRange]
        omega
      · rw [Option.ite_none_right_eq_some, Option.some.injEq, Prod.mk.injEq]
        refine ⟨⟨by omega, by omega, by omega, by omega⟩, by omega, by omega⟩

/-- No false negative at the cell level: an object within the query
radius lies in one of the visited cells. -/
theorem getCell_mem_nearbyCells (g : SpatialGrid)
    (hc : 0 < g.cell_size) (hgw : 1 ≤ g.grid_width) (hgh : 1 ≤ g.grid_height)
    {px py ox oy radius : ℚ} (hr : 0 ≤ radius)
    (hd : distSq px py ox oy ≤ radius * radius) :
    g.getCell ox oy ∈ g.nearbyCells px py radius := by
  have hxabs : |ox - px| ≤ radius := by
    apply abs_le_of_mul_self_le hr
    have h0 : 0 ≤ (oy - py) * (oy - py) := mul_self_nonneg _
    simp only [distSq] at hd
    nlinarith
  have hyabs : |oy - py| ≤ radius := by
    apply abs_le_of_mul_self_le hr
    have h0 : 0 ≤ (ox - px) * (ox - px) := mul_self_nonneg _
    simp only [distSq] at hd
    nlinarith
  have hk0 : 0 ≤ g.cellRadius radius :=
    Int.ceil_nonneg (by positivity)
  have hxf := floor_div_dist_le hc hr (abs_le.mp hxabs).2
    (by have := (abs_le.mp hxabs).1; linarith)
  have hyf := floor_div_dist_le hc hr (abs_le.mp hyabs).2
    (by have := (abs_le.mp hyabs).1; linarith)
  have hxc := @clampI_dist ⌊ox / g.cell_size⌋ ⌊px / g.cell_size⌋
    ⌈radius / g.cell_size⌉ 0 (g.grid_width - 1) hxf.1 hxf.2
  have hyc := @clampI_dist ⌊oy / g.cell_size⌋ ⌊py / g.cell_size⌋
    ⌈radius / g.cell_size⌉ 0 (g.grid_height - 1) hyf.1 hyf.2
  have hxb := @clampI_bounds ⌊ox / g.cell_size⌋ 0 (g.grid_width - 1) (by omega)
  have hyb := @clampI_bounds ⌊oy / g.cell_size⌋ 0 (g.grid_height - 1) (by omega)
  rw [mem_nearbyCells_iff]
  simp only [SpatialGrid.getCell, SpatialGrid.cellRadius] at *
  refine ⟨by omega, by omega, by omega, by omega, by omega, by omega, by omega,
    by omega⟩

theorem grid_width_pos (g : SpatialGrid) (hc : 0 < g.cell_size)
    (hw : 0 < g.world_width) : 1 ≤ g.grid_width := by
  have h := Int.ceil_pos.mpr (div_pos hw hc)
  unfold SpatialGrid.grid_width
  omega

theorem grid_height_pos (g : SpatialGrid) (hc : 0 < g.cell_size)
    (hh : 0 < g.world_height) : 1 ≤ g.grid_height := by
  have h := Int.ceil_pos.mpr (div_pos hh hc)
  unfold SpatialGrid.grid_height
  omega

theorem keepObj_none_inv (o : GObj) (q : GObj × ℚ) (px py radius : ℚ)
    (h : keepObj none px py radius o = some q) :
    q.1 = o ∧ q.1.alive = true ∧ q.2 = distSq px py o.x o.y ∧
      q.2 ≤ radius * radius := by
  by_cases ha : o.alive = false
  · simp [keepObj, ha] at h
  · by_cases hd : distSq px py o.x o.y ≤ radius * radius
    · rw [show keepObj none px py radius o = some (o, distSq px py o.x o.y) by
        simp [keepObj, ha, hd]] at h
      obtain rfl := (Option.some.injEq _ _).mp h
      exact ⟨rfl, by simpa using ha, rfl, hd⟩
    · simp [keepObj, ha, hd] at h

theorem mergeSort_leDist_sorted (l : List (GObj × ℚ)) :
    List.Sorted (fun a b : GObj × ℚ => a.2 ≤ b.2) (l.mergeSort leDist) := by
  have h := @List.sorted_mergeSort (GObj × ℚ) leDist
    (by intro a b c hab hbc; simp only [leDist, decide_eq_true_eq] at *; linarith)
    (by intro a b; simp only [leDist]; simpa using le_total a.2 b.2) l
  exact h.imp (fun hx => of_decide_eq_true hx)

/-- Characterisation of the sorted query result: the exact set of live
in-radius objects, each paired with its squared distance, and sorted. -/
theorem queryRadius_correct (g : SpatialGrid) (objs : List GObj)
    (px py radius : ℚ)
    (hc : 0 < g.cell_size) (hw : 0 < g.world_width) (hh : 0 < g.world_height)
    (hr : 0 ≤ radius)
    (halive : ∀ o ∈ objs, o.alive = true) :
    (∀ o : GObj,
        (o, distSq px py o.x o.y) ∈ g.queryRadius objs px py radius none ↔
          o ∈ objs ∧ distSq px py o.x o.y ≤ radius * radius) ∧
    (∀ p ∈ g.queryRadius objs px py radius none,
        p.1 ∈ objs ∧ p.2 = distSq px py p.1.x p.1.y ∧
          p.2 ≤ radius * radius) ∧
    List.Sorted (fun a b : GObj × ℚ => a.2 ≤ b.2)
      (g.queryRadius objs px py radius none) := by
  have hgw := grid_width_pos g hc hw
  have hgh := grid_height_pos g hc hh
  have hperm := List.mergeSort_perm
    ((g.nearbyCells px py radius).flatMap fun cell =>
      (g.cellObjects objs cell).filterMap (keepObj none px py radius)) leDist
  have hsound : ∀ p ∈ g.queryRadius objs px py radius none,
      p.1 ∈ objs ∧ p.2 = distSq px py p.1.x p.1.y ∧ p.2 ≤ radius * radius := by
    intro p hp
    rw [SpatialGrid.queryRadius, hperm.mem_iff, List.mem_flatMap] at hp
    obtain ⟨cell, hcell, hpcell⟩ := hp
    rw [List.mem_filterMap] at hpcell
    obtain ⟨o, ho, hk⟩ := hpcell
    obtain ⟨he, _, hd2, hd3⟩ := keepObj_none_inv o p px py radius hk
    have hobjs : o ∈ objs := by
      rw [SpatialGrid.cellObjects, List.mem_filter] at ho
      exact ho.1
    exact ⟨he ▸ hobjs, by rw [hd2, he], hd3⟩
  refine ⟨?_, hsound, ?_⟩
  · intro o
    constructor
    · intro hmem
      obtain ⟨h1, h2, h3⟩ := hsound _ hmem
      exact ⟨h1, h3⟩
    · rintro ⟨ho, hd⟩
      have ha := halive o ho
      have hkeep : keepObj none px py radius o =
          some (o, distSq px py o.x o.y) := by
        simp [keepObj, ha, hd]
      have hcellmem : o ∈ g.cellObjects objs (g.getCell o.x o.y) := by
        rw [SpatialGrid.cellObjects]
        exact List.mem_filter.mpr ⟨ho, by simp⟩
      have hnear := getCell_mem_nearbyCells g hc hgw hgh hr hd
      rw [SpatialGrid.queryRadius, hperm.mem_iff, List.mem_flatMap]
      exact ⟨g.getCell o.x o.y, hnear,
        List.mem_filterMap.mpr ⟨o, hcellmem, hkeep⟩⟩
  · exact mergeSort_leDist_sorted _

/-- C1: for every finite set of live objects inserted into the spatial
grid at in-bounds positions, every query point, every (nonnegative)
radius, and every (positive) cell size, get_plants_in_radius and
get_entities_in_radius return exactly the set of live objects whose
distance from the query point is within the radius — no false negatives
and no false positives — and the returned sequence is sorted in
non-decreasing distance order (squared distances order identically to
distances). -/
theorem C1_query_radius_exact_sorted
    (g : SpatialGrid) (objs : List GObj) (px py radius : ℚ)
    (hc : 0 < g.cell_size) (hw : 0 < g.world_width) (hh : 0 < g.world_height)
    (hr : 0 ≤ radius)
    (hin : ∀ o ∈ objs, 0 ≤ o.x ∧ o.x ≤ g.world_width ∧
      0 ≤ o.y ∧ o.y ≤ g.world_height)
    (halive : ∀ o ∈ objs, o.alive = true) :
    ((∀ o : GObj,
        (o, distSq px py o.x o.y) ∈ g.get_plants_in_radius objs px py radius ↔
          o ∈ objs ∧ distSq px py o.x o.y ≤ radius * radius) ∧
     (∀ p ∈ g.get_plants_in_radius objs px py radius,
        p.1 ∈ objs ∧ p.2 = distSq px py p.1.x p.1.y ∧ p.2 ≤ radius * radius) ∧
     List.Sorted (fun a b : GObj × ℚ => a.2 ≤ b.2)
       (g.get_plants_in_radius objs px py radius)) ∧
    ((∀ o : GObj,
        (o, distSq px py o.x o.y) ∈
            g.get_entities_in_radius objs px py radius none ↔
          o ∈ objs ∧ distSq px py o.x o.y ≤ radius * radius) ∧
     (∀ p ∈ g.get_entities_in_radius objs px py radius none,
        p.1 ∈ objs ∧ p.2 = distSq px py p.1.x p.1.y ∧ p.2 ≤ radius * radius) ∧
     List.Sorted (fun a b : GObj × ℚ => a.2 ≤ b.2)
       (g.get_entities_in_radius objs px py radius none)) :=
  ⟨queryRadius_correct g objs px py radius hc hw hh hr halive,
   queryRadius_correct g objs px py radius hc hw hh hr halive⟩

/-- Concrete grid used by the C1 witness. -/
def c1Grid : SpatialGrid := ⟨100, 100, 10⟩

/-- Concrete object set used by the C1 witness. -/
def c1Objs : List GObj := [⟨1, 5, 5, true⟩, ⟨2, 50, 50, true⟩]

/-- Witness for C1 at a concrete grid, object set, query and radius. -/
theorem C1_query_radius_exact_sorted_witness :
    (0 < c1Grid.cell_size ∧ 0 < c1Grid.world_width ∧ 0 < c1Grid.world_height ∧
     (0:ℚ) ≤ 20 ∧
     (∀ o ∈ c1Objs, 0 ≤ o.x ∧ o.x ≤ c1Grid.world_width ∧
        0 ≤ o.y ∧ o.y ≤ c1Grid.world_height) ∧
     (∀ o ∈ c1Objs, o.alive = true)) ∧
    ((∀ o : GObj,
        (o, distSq 0 0 o.x o.y) ∈ c1Grid.get_plants_in_radius c1Objs 0 0 20 ↔
          o ∈ c1Objs ∧ distSq 0 0 o.x o.y ≤ 20 * 20) ∧
     (∀ p ∈ c1Grid.get_plants_in_radius c1Objs 0 0 20,
        p.1 ∈ c1Objs ∧ p.2 = distSq 0 0 p.1.x p.1.y ∧ p.2 ≤ 20 * 20) ∧
     List.Sorted (fun a b : GObj × ℚ => a.2 ≤ b.2)
       (c1Grid.get_plants_in_radius c1Objs 0 0 20)) ∧
    ((∀ o : GObj,
        (o, distSq 0 0 o.x o.y) ∈
            c1Grid.get_entities_in_radius c1Objs 0 0 20 none ↔
          o ∈ c1Objs ∧ distSq 0 0 o.x o.y ≤ 20 * 20) ∧
     (∀ p ∈ c1Grid.get_entities_in_radius c1Objs 0 0 20 none,
        p.1 ∈ c1Objs ∧ p.2 = distSq 0 0 p.1.x p.1.y ∧ p.2 ≤ 20 * 20) ∧
     List.Sorted (fun a b : GObj × ℚ => a.2 ≤ b.2)
       (c1Grid.get_entities_in_radius c1Objs 0 0 20 none)) := by
  refine ⟨⟨by norm_num [c1Grid], by norm_num [c1Grid], by norm_num [c1Grid],
    by norm_num, by decide, by decide⟩, ?_⟩
  exact C1_query_radius_exact_sorted c1Grid c1Objs 0 0 20
    (by norm_num [c1Grid]) (by norm_num [c1Grid]) (by norm_num [c1Grid])
    (by norm_num) (by decide) (by decide)

/-! ## Energy system (src/core/physics.py, class EnergySystem) and the
base entity (src/core/entity.py, class Entity) -/

/-- EnergySystem.MOVEMENT_COST_HERBIVORE. -/
def MOVEMENT_COST_HERBIVORE : ℚ := 3 / 10000

/-- EnergySystem.MOVEMENT_COST_PREDATOR. -/
def MOVEMENT_COST_PREDATOR : ℚ := 1 / 1000

/-- EnergySystem.MOVEMENT_COST_SMART. -/
def MOVEMENT_COST_SMART : ℚ := 2 / 10000

/-- EnergySystem.METABOLIC_RATE. -/
def METABOLIC_RATE : ℚ := 5 / 1000000

/-- EnergySystem.calculate_movement_cost.  The source receives the speed
magnitude |v| and computes |v| ** 2 * coefficient * dt; this embedding
receives the squared magnitude directly (exact over the rationals, see
the header) and multiplies it by the same coefficient and dt. -/
def calculate_movement_cost (speed_sq : ℚ) (dt : ℚ) (entity_type : String) :
    ℚ :=
  speed_sq *
    (if entity_type = "herbivore" then MOVEMENT_COST_HERBIVORE
     else if entity_type = "smart" then MOVEMENT_COST_SMART
     else MOVEMENT_COST_PREDATOR) * dt

/-- EnergySystem.calculate_metabolic_cost. -/
def calculate_metabolic_cost (dt : ℚ) : ℚ := METABOLIC_RATE * dt

/-- State of a core Entity (src/core/entity.py).  The id, entity_type,
radius and vision_range construction fields are carried where needed;
velocity is kept as components (the squared magnitude vx*vx + vy*vy is
exact over the rationals). -/
structure EntityS where
  entity_type : String
  pos_x : ℚ
  pos_y : ℚ
  vel_x : ℚ
  vel_y : ℚ
  energy : ℚ
  max_energy : ℚ
  health : ℚ
  max_health : ℚ
  is_alive : Bool
  age : ℚ
  deriving Repr, DecidableEq

/-- Entity.update(dt): advance age, move by velocity*dt, subtract
movement plus metabolic cost from energy, die of starvation when the
resulting energy is <= 0, then clamp energy to max_energy from above. -/
def EntityS.update (e : EntityS) (dt : ℚ) : EntityS :=
  let energy1 := e.energy -
    (calculate_movement_cost (e.vel_x * e.vel_x + e.vel_y * e.vel_y) dt
        e.entity_type +
      calculate_metabolic_cost dt)
  { e with
    age := e.age + dt
    pos_x := e.pos_x + e.vel_x * dt
    pos_y := e.pos_y + e.vel_y * dt
    energy := if energy1 > e.max_energy then e.max_energy else energy1
    is_alive := if energy1 ≤ 0 then false else e.is_alive }

/-- Entity.gain_energy(amount): energy = min(max_energy, energy + amount). -/
def EntityS.gain_energy (e : EntityS) (amount : ℚ) : EntityS :=
  { e with energy := min e.max_energy (e.energy + amount) }

/-- Entity.take_damage(amount): health -= amount, energy -= amount * 0.5,
die when the resulting health is <= 0. -/
def EntityS.take_damage (e : EntityS) (amount : ℚ) : EntityS :=
  { e with
    health := e.health - amount
    energy := e.energy - amount * (1 / 2)
    is_alive := if e.health - amount ≤ 0 then false else e.is_alive }

/-! ### Energy decrease and no resurrection (claim C2) -/

/-- C2: for every entity that gains no energy during a tick, one call to
Entity.update(dt) decreases its energy by exactly
movement_cost + metabolic_cost, with
movement_cost = |velocity|^2 * species_coefficient * dt (herbivore
0.0003, smart 0.0002, otherwise 0.001) and
metabolic_cost = metabolic_rate * dt; once energy <= 0 the alive flag
becomes false, and no operation on an entity ever sets a false alive
flag back to true. -/
theorem C2_energy_decrease_no_resurrection (e : EntityS) (dt : ℚ)
    (hdt : 0 ≤ dt) (hle : e.energy ≤ e.max_energy) :
    ((e.update dt).energy =
      e.energy -
        ((e.vel_x * e.vel_x + e.vel_y * e.vel_y) *
            (if e.entity_type = "herbivore" then (3 / 10000 : ℚ)
             else if e.entity_type = "smart" then 2 / 10000
             else 1 / 1000) * dt +
          METABOLIC_RATE * dt)) ∧
    ((e.update dt).energy ≤ 0 → (e.update dt).is_alive = false) ∧
    (e.is_alive = false →
      (e.update dt).is_alive = false ∧
      (∀ a : ℚ, (e.take_damage a).is_alive = false) ∧
      (∀ a : ℚ, (e.gain_energy a).is_alive = false)) := by
  have hsq : 0 ≤ e.vel_x * e.vel_x + e.vel_y * e.vel_y :=
    add_nonneg (mul_self_nonneg _) (mul_self_nonneg _)
  have hcoef : (0:ℚ) ≤
      (if e.entity_type = "herbivore" then MOVEMENT_COST_HERBIVORE
       else if e.entity_type = "smart" then MOVEMENT_COST_SMART
       else MOVEMENT_COST_PREDATOR) := by
    split_ifs <;>
      norm_num [MOVEMENT_COST_HERBIVORE, MOVEMENT_COST_SMART,
        MOVEMENT_COST_PREDATOR]
  have hmc : 0 ≤ calculate_movement_cost
      (e.vel_x * e.vel_x + e.vel_y * e.vel_y) dt e.entity_type := by
    unfold calculate_movement_cost
    exact mul_nonneg (mul_nonneg hsq hcoef) hdt
  have hmet : 0 ≤ calculate_metabolic_cost dt := by
    unfold calculate_metabolic_cost METABOLIC_RATE
    exact mul_nonneg (by norm_num) hdt
  have henergy1 : e.energy -
      (calculate_movement_cost (e.vel_x * e.vel_x + e.vel_y * e.vel_y) dt
          e.entity_type +
        calculate_metabolic_cost dt) ≤ e.max_energy := by linarith
  refine ⟨?_, ?_, ?_⟩
  · show (if _ > e.max_energy then e.max_energy else _) = _
    rw [if_neg (by exact not_lt.mpr henergy1)]
    unfold calculate_movement_cost calculate_metabolic_cost
      MOVEMENT_COST_HERBIVORE MOVEMENT_COST_SMART MOVEMENT_COST_PREDATOR
    rfl
  · intro hneg
    show (if _ ≤ (0:ℚ) then false else e.is_alive) = false
    by_cases hcase : e.energy -
        (calculate_movement_cost (e.vel_x * e.vel_x + e.vel_y * e.vel_y) dt
            e.entity_type +
          calculate_metabolic_cost dt) ≤ 0
    · rw [if_pos hcase]
    · exfalso
      have hup : (e.update dt).energy =
          e.energy -
            (calculate_movement_cost
                (e.vel_x * e.vel_x + e.vel_y * e.vel_y) dt e.entity_type +
              calculate_metabolic_cost dt) := by
        show (if _ > e.max_energy then e.max_energy else _) = _
        rw [if_neg (by exact not_lt.mpr henergy1)]
      rw [hup] at hneg
      exact hcase hneg
  · intro hdead
    refine ⟨?_, ?_, ?_⟩
    · show (if _ ≤ (0:ℚ) then false else e.is_alive) = false
      rw [hdead]
      split_ifs <;> rfl
    · intro a
      show (if _ ≤ (0:ℚ) then false else e.is_alive) = false
      rw [hdead]
      split_ifs <;> rfl
    · intro a
      exact hdead

/-- Concrete entity used by the C2 witness: a herbivore-typed entity
with velocity (3, 4) and energy 50 of 100. -/
def c2Ent : EntityS :=
  ⟨"herbivore", 0, 0, 3, 4, 50, 100, 100, 100, true, 0⟩

/-- Witness for C2 at a concrete entity and dt = 1/2. -/
theorem C2_energy_decrease_no_resurrection_witness :
    ((0:ℚ) ≤ 1 / 2 ∧ c2Ent.energy ≤ c2Ent.max_energy) ∧
    ((c2Ent.update (1 / 2)).energy =
      c2Ent.energy -
        ((c2Ent.vel_x * c2Ent.vel_x + c2Ent.vel_y * c2Ent.vel_y) *
            (if c2Ent.entity_type = "herbivore" then (3 / 10000 : ℚ)
             else if c2Ent.entity_type = "smart" then 2 / 10000
             else 1 / 1000) * (1 / 2) +
          METABOLIC_RATE * (1 / 2))) ∧
    ((c2Ent.update (1 / 2)).energy ≤ 0 →
      (c2Ent.update (1 / 2)).is_alive = false) ∧
    (c2Ent.is_alive = false →
      (c2Ent.update (1 / 2)).is_alive = false ∧
      (∀ a : ℚ, (c2Ent.take_damage a).is_alive = false) ∧
      (∀ a : ℚ, (c2Ent.gain_energy a).is_alive = false)) :=
  ⟨⟨by norm_num, by norm_num [c2Ent]⟩,
   C2_energy_decrease_no_resurrection c2Ent (1 / 2) (by norm_num)
     (by norm_num [c2Ent])⟩

/-! ## Sensing (src/core/entity.py, Entity.get_sensor_data) -/

/-- A plant as stored in World.plants (src/core/resource.py, Plant):
the fields sensing reads. -/
structure WPlant where
  id : Nat
  x : ℚ
  y : ℚ
  energy : ℚ
  alive : Bool
  deriving Repr, DecidableEq

/-- An entity as stored in World.entities: the fields sensing reads. -/
structure WEntity where
  id : Nat
  entity_type : String
  x : ℚ
  y : ℚ
  vx : ℚ
  vy : ℚ
  energy : ℚ
  alive : Bool
  deriving Repr, DecidableEq

/-- The slice of World state that sensing reads. -/
structure WorldS where
  width : ℚ
  height : ℚ
  plants : List WPlant
  entities : List WEntity
  deriving Repr, DecidableEq

/-- One nearby-plant record of the sensor dictionary: distance (carried
squared, see the header), energy, id.  The direction entry (a normalized
vector, requiring a square root) is not used by any claim and is
omitted. -/
structure PlantRec where
  distance_sq : ℚ
  energy : ℚ
  id : Nat
  deriving Repr, DecidableEq

/-- One nearby-entity record of the sensor dictionary: distance
(squared), velocity, energy, id; direction omitted as above. -/
structure EntRec where
  distance_sq : ℚ
  vx : ℚ
  vy : ℚ
  energy : ℚ
  id : Nat
  deriving Repr, DecidableEq

/-- The sensor dictionary returned by Entity.get_sensor_data. -/
structure SensorData where
  self_energy : ℚ
  nearby_plants : List PlantRec
  nearby_herbivores : List EntRec
  nearby_predators : List EntRec
  nearby_smarts : List EntRec
  world_width : ℚ
  world_height : ℚ
  deriving Repr, DecidableEq

/-- Entity.get_sensor_data(world) for a sensing entity with identity
selfId, position (px, py), the given vision_range, energy and
max_energy: one pass over world.plants keeping live plants strictly
within vision range, and one pass over world.entities skipping the
sensing entity itself, keeping entities strictly within vision range and
bucketing them into the three species lists (appending to a bucket per
list order is the filterMap of that bucket's condition). -/
def get_sensor_data (selfId : Nat) (px py vision_range energy max_energy : ℚ)
    (w : WorldS) : SensorData :=
  { self_energy := energy / max_energy
    nearby_plants := w.plants.filterMap (fun p =>
      if distSq px py p.x p.y < vision_range * vision_range ∧ p.alive = true
      then some ⟨distSq px py p.x p.y, p.energy, p.id⟩
      else none)
    nearby_herbivores := w.entities.filterMap (fun en =>
      if en.id ≠ selfId ∧ distSq px py en.x en.y < vision_range * vision_range ∧
          en.entity_type = "herbivore"
      then some ⟨distSq px py en.x en.y, en.vx, en.vy, en.energy, en.id⟩
      else none)
    nearby_predators := w.entities.filterMap (fun en =>
      if en.id ≠ selfId ∧ distSq px py en.x en.y < vision_range * vision_range ∧
          en.entity_type = "predator"
      then some ⟨distSq px py en.x en.y, en.vx, en.vy, en.energy, en.id⟩
      else none)
    nearby_smarts := w.entities.filterMap (fun en =>
      if en.id ≠ selfId ∧ distSq px py en.x en.y < vision_range * vision_range ∧
          en.entity_type = "smart"
      then some ⟨distSq px py en.x en.y, en.vx, en.vy, en.energy, en.id⟩
      else none)
    world_width := w.width
    world_height := w.height }

/-! ### Sensor list contents (claim C3) -/

/-- World used by the C3 counterexample: three herbivores around the
sensing entity (id 100) at the origin — a dead one at distance 5, then
live ones at distances 30 and 10 in world-list order. -/
def c3World : WorldS :=
  { width := 1200
    height := 1200
    plants := []
    entities :=
      [⟨1, "herbivore", 5, 0, 0, 0, 10, false⟩,
       ⟨2, "herbivore", 30, 0, 0, 0, 10, true⟩,
       ⟨3, "herbivore", 10, 0, 0, 0, 10, true⟩] }

/-- C3 counterexample: for the concrete world c3World the
nearby_herbivores list of get_sensor_data is neither sorted by ascending
distance nor free of dead entities — the dead entity id 1 (distance 5)
is listed, and the records appear in world order (distances 5, 30, 10),
refuting the claim that the lists exclude dead objects and are ordered
nearest first. -/
theorem C3_sensor_sorted_and_no_dead_counterexample :
    ¬ (List.Sorted (fun a b : EntRec => a.distance_sq ≤ b.distance_sq)
         (get_sensor_data 100 0 0 60 50 100 c3World).nearby_herbivores ∧
       ∀ r ∈ (get_sensor_data 100 0 0 60 50 100 c3World).nearby_herbivores,
         ∀ en ∈ c3World.entities, en.id = r.id → en.alive = true) := by
  rintro ⟨-, hdead⟩
  have hlist : (get_sensor_data 100 0 0 60 50 100 c3World).nearby_herbivores =
      [⟨25, 0, 0, 10, 1⟩, ⟨900, 0, 0, 10, 2⟩, ⟨100, 0, 0, 10, 3⟩] := by
    norm_num [get_sensor_data, c3World, distSq, List.filterMap]
  rw [hlist] at hdead
  have hcontra := hdead ⟨25, 0, 0, 10, 1⟩ (by simp)
    ⟨1, "herbivore", 5, 0, 0, 0, 10, false⟩ (by simp [c3World]) rfl
  simp at hcontra

/-- C3 amended: each sensor list contains exactly the records of the
objects strictly within vision_range, the sensing entity itself is
excluded, dead plants are excluded, and the entity lists bucket by
species tag; however dead entities are not excluded and the lists retain
world iteration order instead of being sorted by distance (see the
counterexample). -/
theorem C3_sensor_lists_exact (selfId : Nat)
    (px py vision_range energy max_energy : ℚ) (w : WorldS) :
    (∀ r : PlantRec,
      r ∈ (get_sensor_data selfId px py vision_range energy max_energy
            w).nearby_plants ↔
        ∃ p ∈ w.plants,
          distSq px py p.x p.y < vision_range * vision_range ∧
          p.alive = true ∧
          r = ⟨distSq px py p.x p.y, p.energy, p.id⟩) ∧
    (∀ r : EntRec,
      r ∈ (get_sensor_data selfId px py vision_range energy max_energy
            w).nearby_herbivores ↔
        ∃ en ∈ w.entities,
          en.id ≠ selfId ∧
          distSq px py en.x en.y < vision_range * vision_range ∧
          en.entity_type = "herbivore" ∧
          r = ⟨distSq px py en.x en.y, en.vx, en.vy, en.energy, en.id⟩) ∧
    (∀ r : EntRec,
      r ∈ (get_sensor_data selfId px py vision_range energy max_energy
            w).nearby_predators ↔
        ∃ en ∈ w.entities,
          en.id ≠ selfId ∧
          distSq px py en.x en.y < vision_range * vision_range ∧
          en.entity_type = "predator" ∧
          r = ⟨distSq px py en.x en.y, en.vx, en.vy, en.energy, en.id⟩) ∧
    (∀ r : EntRec,
      r ∈ (get_sensor_data selfId px py vision_range energy max_energy
            w).nearby_smarts ↔
        ∃ en ∈ w.entities,
          en.id ≠ selfId ∧
          distSq px py en.x en.y < vision_range * vision_range ∧
          en.entity_type = "smart" ∧
          r = ⟨distSq px py en.x en.y, en.vx, en.vy, en.energy, en.id⟩) := by
  refine ⟨?_, ?_, ?_, ?_⟩ <;>
      intro r <;>
      simp only [get_sensor_data, List.mem_filterMap,
        Option.ite_none_right_eq_some, Option.some.injEq] <;>
      constructor
  · rintro ⟨a, ha, ⟨hc1, hc2⟩, heq⟩
    exact ⟨a, ha, hc1, hc2, heq.symm⟩
  · rintro ⟨a, ha, hc1, hc2, heq⟩
    exact ⟨a, ha, ⟨hc1, hc2⟩, heq.symm⟩
  · rintro ⟨a, ha, ⟨hc1, hc2, hc3⟩, heq⟩
    exact ⟨a, ha, hc1, hc2, hc3, heq.symm⟩
  · rintro ⟨a, ha, hc1, hc2, hc3, heq⟩
    exact ⟨a, ha, ⟨hc1, hc2, hc3⟩, heq.symm⟩
  · rintro ⟨a, ha, ⟨hc1, hc2, hc3⟩, heq⟩
    exact ⟨a, ha, hc1, hc2, hc3, heq.symm⟩
  · rintro ⟨a, ha, hc1, hc2, hc3, heq⟩
    exact ⟨a, ha, ⟨hc1, hc2, hc3⟩, heq.symm⟩
  · rintro ⟨a, ha, ⟨hc1, hc2, hc3⟩, heq⟩
    exact ⟨a, ha, hc1, hc2, hc3, heq.symm⟩
  · rintro ⟨a, ha, hc1, hc2, hc3, heq⟩
    exact ⟨a, ha, ⟨hc1, hc2, hc3⟩, heq.symm⟩

/-! ## Item types (src/core/items.py) -/

/-- ItemType (src/core/items.py).  Declared before the creatures: the
smart creature's damage mitigation reads the equipped armor's ITEM_DB
entry. -/
inductive ItemT where
  | wood
  | stone
  | copper_ore
  | iron_ore
  | coal
  | meat
  | leather
  | cooked_meat
  | healing_herb
  | copper_ingot
  | iron_ingot
  | stone_pickaxe
  | copper_pickaxe
  | iron_pickaxe
  | stone_spear
  | copper_spear
  | iron_spear
  | leather_bag
  | leather_armor
  deriving Repr, DecidableEq, Fintype

/-- The defense column of ITEM_DB (ItemStats.defense, default 0.0;
only LEATHER_ARMOR sets it, to 0.2).  COAL has no ITEM_DB entry in the
source, hence none. -/
def ITEM_DB_defense : ItemT → Option ℚ
  | ItemT.coal => none
  | ItemT.leather_armor => some (1 / 5)
  | _ => some 0

/-! ## Predator attack (src/creatures/predator.py) and the smart
creature's damage mitigation (src/creatures/smart.py) -/

/-- Predator state fields read and written by the attack path. -/
structure PredS where
  energy : ℚ
  max_energy : ℚ
  attack_damage : ℚ
  attack_range : ℚ
  attack_cooldown : ℚ
  attack_timer : ℚ
  state : String
  deriving Repr, DecidableEq

/-- Predator.get_damage: energy_ratio = max(0, energy / max_energy),
damage = attack_damage * (0.3 + energy_ratio * 1.2). -/
def PredS.get_damage (p : PredS) : ℚ :=
  p.attack_damage * (3 / 10 + max 0 (p.energy / p.max_energy) * (12 / 10))

/-- SmartCreature state read by the damage-intake path
(src/creatures/smart.py): the underlying Entity state plus the equipped
armor slot that get_defense reads. -/
structure SmartS where
  ent : EntityS
  armor : Option ItemT
  deriving Repr, DecidableEq

/-- SmartCreature.get_defense: the equipped armor's ITEM_DB defense,
0.0 with no armor equipped or no ITEM_DB entry for it. -/
def SmartS.get_defense (s : SmartS) : ℚ :=
  match s.armor with
  | none => 0
  | some a => (ITEM_DB_defense a).getD 0

/-- SmartCreature.take_damage override: final_damage =
amount * (1.0 - defense), then the base Entity.take_damage runs on the
mitigated amount. -/
def SmartS.take_damage (s : SmartS) (amount : ℚ) : SmartS :=
  { s with ent := s.ent.take_damage (amount * (1 - s.get_defense)) }

/-- A prey entity as the predator's attack sees it: the dynamic
dispatch of entity.take_damage selects the base Entity.take_damage for
herbivores (and any plain Animal) and the SmartCreature override for
smart prey. -/
inductive PreyS where
  | base : EntityS → PreyS
  | smart : SmartS → PreyS
  deriving Repr, DecidableEq

/-- The prey-side take_damage dispatch. -/
def PreyS.take_damage : PreyS → ℚ → PreyS
  | PreyS.base e, a => PreyS.base (e.take_damage a)
  | PreyS.smart s, a => PreyS.smart (s.take_damage a)

/-- The prey's health field. -/
def PreyS.health : PreyS → ℚ
  | PreyS.base e => e.health
  | PreyS.smart s => s.ent.health

/-- The prey's energy field. -/
def PreyS.energy : PreyS → ℚ
  | PreyS.base e => e.energy
  | PreyS.smart s => s.ent.energy

/-- The prey's is_alive flag. -/
def PreyS.is_alive : PreyS → Bool
  | PreyS.base e => e.is_alive
  | PreyS.smart s => s.ent.is_alive

/-- The attack landing path shared by Predator.behavior,
Predator._execute_decision action attack, and the auto-attack of the
move action: once a prey entity is matched (by id lookup, or found
within attack_range for the auto-attack) and attack_timer <= 0, the
prey takes get_damage through its own take_damage method (the base
Entity.take_damage for herbivore prey, the armor-mitigating
SmartCreature.take_damage for smart prey), the attacker gains
1.5 * damage energy, resets attack_timer to attack_cooldown and enters
the attacking state; with attack_timer > 0 nothing happens. -/
def predatorAttack (p : PredS) (prey : PreyS) : PredS × PreyS :=
  if p.attack_timer ≤ 0 then
    ({ p with
        energy := p.energy + p.get_damage * (3 / 2)
        attack_timer := p.attack_cooldown
        state := "attacking" },
     prey.take_damage p.get_damage)
  else (p, prey)

/-! ### Life invariants after mutations (claim C4) -/

/-- Concrete entity for the C4 counterexample: energy 1, health 100,
alive. -/
def c4Ent : EntityS := ⟨"herbivore", 0, 0, 0, 0, 1, 100, 100, 100, true, 0⟩

/-- C4 counterexample: Entity.take_damage(10) on an entity with energy 1
and health 100 leaves energy = -4 <= 0 while is_alive stays true:
take_damage checks only the health invariant, so the energy invariant is
violated right after this mutation, refuting the claim. -/
theorem C4_invariants_counterexample :
    (c4Ent.take_damage 10).energy ≤ 0 ∧
    (c4Ent.take_damage 10).is_alive = true := by
  norm_num [EntityS.take_damage, c4Ent]

/-- C4 amended: after Entity.update the starvation invariant
energy <= 0 → not alive holds, and update preserves the combat
invariant health <= 0 → not alive (health is untouched and the flag is
only ever switched off); after Entity.take_damage the combat invariant
holds; and the predator attack path preserves the prey's combat
invariant under both take_damage dispatch targets (the base
Entity.take_damage and the armor-mitigating SmartCreature override,
which ends in the same base kill check) as well as in the cooldown
branch.  The energy invariant, however, is only re-established at the
next update: take_damage may leave energy <= 0 with alive = true (see
the counterexample). -/
theorem C4_invariants_amended (e : EntityS) (prey : PreyS) (p : PredS)
    (dt a : ℚ)
    (hdt : 0 ≤ dt) (hle : e.energy ≤ e.max_energy)
    (hprey : prey.health ≤ 0 → prey.is_alive = false) :
    ((e.update dt).energy ≤ 0 → (e.update dt).is_alive = false) ∧
    ((e.health ≤ 0 → e.is_alive = false) →
      ((e.update dt).health ≤ 0 → (e.update dt).is_alive = false)) ∧
    ((e.take_damage a).health ≤ 0 → (e.take_damage a).is_alive = false) ∧
    ((predatorAttack p prey).2.health ≤ 0 →
      (predatorAttack p prey).2.is_alive = false) := by
  have hsq : 0 ≤ e.vel_x * e.vel_x + e.vel_y * e.vel_y :=
    add_nonneg (mul_self_nonneg _) (mul_self_nonneg _)
  have hcoef : (0:ℚ) ≤
      (if e.entity_type = "herbivore" then MOVEMENT_COST_HERBIVORE
       else if e.entity_type = "smart" then MOVEMENT_COST_SMART
       else MOVEMENT_COST_PREDATOR) := by
    split_ifs <;>
      norm_num [MOVEMENT_COST_HERBIVORE, MOVEMENT_COST_SMART,
        MOVEMENT_COST_PREDATOR]
  have hmc : 0 ≤ calculate_movement_cost
      (e.vel_x * e.vel_x + e.vel_y * e.vel_y) dt e.entity_type := by
    unfold calculate_movement_cost
    exact mul_nonneg (mul_nonneg hsq hcoef) hdt
  have hmet : 0 ≤ calculate_metabolic_cost dt := by
    unfold calculate_metabolic_cost METABOLIC_RATE
    exact mul_nonneg (by norm_num) hdt
  have henergy1 : e.energy -
      (calculate_movement_cost (e.vel_x * e.vel_x + e.vel_y * e.vel_y) dt
          e.entity_type +
        calculate_metabolic_cost dt) ≤ e.max_energy := by linarith
  refine ⟨?_, ?_, ?_, ?_⟩
  · intro hneg
    show (if _ ≤ (0:ℚ) then false else e.is_alive) = false
    by_cases hcase : e.energy -
        (calculate_movement_cost (e.vel_x * e.vel_x + e.vel_y * e.vel_y) dt
            e.entity_type +
          calculate_metabolic_cost dt) ≤ 0
    · rw [if_pos hcase]
    · exfalso
      have hup : (e.update dt).energy =
          e.energy -
            (calculate_movement_cost
                (e.vel_x * e.vel_x + e.vel_y * e.vel_y) dt e.entity_type +
              calculate_metabolic_cost dt) := by
        show (if _ > e.max_energy then e.max_energy else _) = _
        rw [if_neg (by exact not_lt.mpr henergy1)]
      rw [hup] at hneg
      exact hcase hneg
  · intro hpre hh
    have hh2 : e.health ≤ 0 := hh
    show (if _ ≤ (0:ℚ) then false else e.is_alive) = false
    rw [hpre hh2]
    split_ifs <;> rfl
  · intro hh
    show (if e.health - a ≤ 0 then false else e.is_alive) = false
    exact if_pos hh
  · intro hh
    unfold predatorAttack at hh ⊢
    split_ifs at hh ⊢ with htimer
    · cases prey with
      | base e0 =>
        simp only [PreyS.take_damage, PreyS.health, PreyS.is_alive,
          EntityS.take_damage] at hh ⊢
        exact if_pos hh
      | smart s0 =>
        simp only [PreyS.take_damage, PreyS.health, PreyS.is_alive,
          SmartS.take_damage, EntityS.take_damage] at hh ⊢
        exact if_pos hh
    · exact hprey hh

/-- Concrete prey for the C4 witness: an armored smart creature, so the
witness exercises the SmartCreature.take_damage dispatch target. -/
def c4Prey : PreyS :=
  PreyS.smart ⟨⟨"smart", 0, 0, 0, 0, 40, 100, 60, 100, true, 0⟩,
    some ItemT.leather_armor⟩

/-- Concrete predator for the C4 witness. -/
def c4Pred : PredS := ⟨80, 200, 40, 12, 1 / 5, 0, "idle"⟩

/-- Witness for C4 amended at concrete states (dt = 1, damage 5). -/
theorem C4_invariants_amended_witness :
    ((0:ℚ) ≤ 1 ∧ c4Ent.energy ≤ c4Ent.max_energy ∧
     (c4Prey.health ≤ 0 → c4Prey.is_alive = false)) ∧
    (((c4Ent.update 1).energy ≤ 0 → (c4Ent.update 1).is_alive = false) ∧
     ((c4Ent.health ≤ 0 → c4Ent.is_alive = false) →
       ((c4Ent.update 1).health ≤ 0 → (c4Ent.update 1).is_alive = false)) ∧
     ((c4Ent.take_damage 5).health ≤ 0 →
       (c4Ent.take_damage 5).is_alive = false) ∧
     ((predatorAttack c4Pred c4Prey).2.health ≤ 0 →
       (predatorAttack c4Pred c4Prey).2.is_alive = false)) :=
  ⟨⟨by norm_num, by norm_num [c4Ent],
    by norm_num [c4Prey, PreyS.health, PreyS.is_alive]⟩,
   C4_invariants_amended c4Ent c4Prey c4Pred 1 5 (by norm_num)
     (by norm_num [c4Ent])
     (by norm_num [c4Prey, PreyS.health, PreyS.is_alive])⟩

/-! ## Plants (src/core/resource.py, class Plant) -/

/-- Plant state: energy, max_energy, consumption_time, the consumers
dictionary as an insertion-ordered list of (entity id, eating_time), and
the alive flag. -/
structure PlantS where
  energy : ℚ
  max_energy : ℚ
  consumption_time : ℚ
  consumers : List (Nat × ℚ)
  is_alive : Bool
  deriving Repr, DecidableEq

/-- The consumer loop of Plant.update, processing consumers in
dictionary (insertion) order with the running plant energy: each
consumer receives energy_to_give = min(energy_per_consumer, energy),
the plant loses that amount, and the eating_time advances by dt.
Returns (final energy, updated consumers, energy_given in order). -/
def distributeEnergy (epc dt : ℚ) :
    ℚ → List (Nat × ℚ) → ℚ × List (Nat × ℚ) × List (Nat × ℚ)
  | en, [] => (en, [], [])
  | en, c :: rest =>
      let give := min epc en
      let r := distributeEnergy epc dt (en - give) rest
      (r.1, (c.1, c.2 + dt) :: r.2.1, (c.1, give) :: r.2.2)

/-- Plant.update(dt): a depleted plant dies and gives nothing; with no
consumers nothing happens; otherwise the per-tick amount
(max_energy / consumption_time) * dt is divided by the consumer count
and distributed sequentially, capped by the remaining energy. -/
def PlantS.update (p : PlantS) (dt : ℚ) : PlantS × List (Nat × ℚ) :=
  if p.energy ≤ 0 then ({ p with is_alive := false }, [])
  else if p.consumers.length = 0 then (p, [])
  else
    let epc := p.max_energy / p.consumption_time * dt / p.consumers.length
    let r := distributeEnergy epc dt p.energy p.consumers
    ({ p with energy := r.1, consumers := r.2.1 }, r.2.2)

/-! ### Plant energy distribution (claim C5) -/

theorem distributeEnergy_spec (epc dt : ℚ) (hepc : 0 ≤ epc) :
    ∀ (cs : List (Nat × ℚ)) (en : ℚ), 0 ≤ en →
      ((distributeEnergy epc dt en cs).2.2.map Prod.snd).sum =
          en - (distributeEnergy epc dt en cs).1 ∧
      0 ≤ (distributeEnergy epc dt en cs).1 ∧
      (∀ g ∈ (distributeEnergy epc dt en cs).2.2, 0 ≤ g.2 ∧ g.2 ≤ epc) ∧
      (epc * cs.length ≤ en →
        ∀ g ∈ (distributeEnergy epc dt en cs).2.2, g.2 = epc) := by
  intro cs
  induction cs with
  | nil =>
    intro en hen
    refine ⟨by simp [distributeEnergy], by simpa [distributeEnergy] using hen,
      by simp [distributeEnergy], by simp [distributeEnergy]⟩
  | cons c rest ih =>
    intro en hen
    have hgive0 : 0 ≤ min epc en := le_min hepc hen
    have hgive_le : min epc en ≤ en := min_le_right _ _
    have hrest := ih (en - min epc en) (by linarith)
    have hunf : distributeEnergy epc dt en (c :: rest) =
        ((distributeEnergy epc dt (en - min epc en) rest).1,
         (c.1, c.2 + dt) ::
           (distributeEnergy epc dt (en - min epc en) rest).2.1,
         (c.1, min epc en) ::
           (distributeEnergy epc dt (en - min epc en) rest).2.2) := rfl
    have hc : ((c :: rest).length : ℚ) = 1 + rest.length := by
      push_cast [List.length_cons]
      ring
    rw [hunf]
    refine ⟨?_, hrest.2.1, ?_, ?_⟩
    · simp only [List.map_cons, List.sum_cons]
      rw [hrest.1]
      ring
    · intro g hg
      rcases List.mem_cons.mp hg with hg1 | hg2
      · rw [hg1]
        exact ⟨hgive0, min_le_left _ _⟩
      · exact hrest.2.2.1 g hg2
    · intro hcap g hg
      have hlen : (0:ℚ) ≤ rest.length := by positivity
      rw [hc] at hcap
      have hepcle : epc ≤ en := by nlinarith
      have hmin : min epc en = epc := min_eq_left hepcle
      rcases List.mem_cons.mp hg with hg1 | hg2
      · rw [hg1]
        exact hmin
      · apply hrest.2.2.2 _ g hg2
        rw [hmin]
        nlinarith

/-- Plant used by the C5 counterexample: energy 60 of max 100,
consumption_time 1, two consumers. -/
def c5Plant : PlantS := ⟨60, 100, 1, [(1, 0), (2, 0)], true⟩

/-- C5 counterexample: with energy 60, max_energy 100,
consumption_time 1, dt 1, the per-tick amount is 100 and the equal share
is 50, but the plant only holds 60: consumer 1 receives 50 and
consumer 2 receives 10 — the split is not equal, refuting the claim as
stated. -/
theorem C5_equal_split_counterexample :
    (c5Plant.update 1).2 = [(1, 50), (2, 10)] ∧
    ¬ (∀ g1 ∈ (c5Plant.update 1).2, ∀ g2 ∈ (c5Plant.update 1).2,
        g1.2 = g2.2) := by
  have h : (c5Plant.update 1).2 = [(1, 50), (2, 10)] := by
    norm_num [c5Plant, PlantS.update, distributeEnergy]
  refine ⟨h, ?_⟩
  rw [h]
  intro hall
  have hx := hall (1, 50) (by simp) (2, 10) (by simp)
  norm_num at hx

/-- C5 amended: in one Plant.update(dt) call the total of the
distributed amounts equals the energy drop and never exceeds the energy
at the start of the call; a plant with zero consumers (or one already
depleted) loses no energy; each consumer is allotted the equal share
(max_energy / consumption_time * dt) / consumer_count but actually
receives min(share, remaining energy at its turn), so consumers late in
dictionary order may receive less when the plant nears depletion; when
the plant holds at least the full per-tick amount every consumer does
receive exactly the equal share. -/
theorem C5_plant_distribution (p : PlantS) (dt : ℚ)
    (hdt : 0 ≤ dt) (hct : 0 < p.consumption_time) (hme : 0 ≤ p.max_energy)
    (hen : 0 ≤ p.energy) :
    ((p.update dt).2.map Prod.snd).sum = p.energy - (p.update dt).1.energy ∧
    ((p.update dt).2.map Prod.snd).sum ≤ p.energy ∧
    0 ≤ (p.update dt).1.energy ∧
    (p.consumers = [] →
      (p.update dt).1.energy = p.energy ∧ (p.update dt).2 = []) ∧
    (∀ g ∈ (p.update dt).2,
      0 ≤ g.2 ∧
      g.2 ≤ p.max_energy / p.consumption_time * dt / p.consumers.length) ∧
    (p.max_energy / p.consumption_time * dt ≤ p.energy →
      ∀ g ∈ (p.update dt).2,
        g.2 = p.max_energy / p.consumption_time * dt / p.consumers.length) := by
  by_cases h1 : p.energy ≤ 0
  · have hupd : p.update dt = ({ p with is_alive := false }, []) := by
      unfold PlantS.update
      rw [if_pos h1]
    rw [hupd]
    refine ⟨by simp, by simpa using hen, hen, fun _ => ⟨rfl, rfl⟩,
      by simp, by simp⟩
  · by_cases h2 : p.consumers.length = 0
    · have hupd : p.update dt = (p, []) := by
        unfold PlantS.update
        rw [if_neg h1, if_pos h2]
      rw [hupd]
      refine ⟨by simp, by simpa using hen, hen, fun _ => ⟨rfl, rfl⟩,
        by simp, by simp⟩
    · have hlen : (0:ℚ) < p.consumers.length := by
        have : 0 < p.consumers.length := Nat.pos_of_ne_zero h2
        exact_mod_cast this
      have hepc : 0 ≤ p.max_energy / p.consumption_time * dt /
          p.consumers.length := by
        apply div_nonneg _ (le_of_lt hlen)
        exact mul_nonneg (div_nonneg hme (le_of_lt hct)) hdt
      have hspec := distributeEnergy_spec
        (p.max_energy / p.consumption_time * dt / p.consumers.length) dt hepc
        p.consumers p.energy hen
      have hupd : p.update dt =
          ({ p with
              energy := (distributeEnergy
                (p.max_energy / p.consumption_time * dt / p.consumers.length)
                dt p.energy p.consumers).1
              consumers := (distributeEnergy
                (p.max_energy / p.consumption_time * dt / p.consumers.length)
                dt p.energy p.consumers).2.1 },
           (distributeEnergy
              (p.max_energy / p.consumption_time * dt / p.consumers.length)
              dt p.energy p.consumers).2.2) := by
        unfold PlantS.update
        rw [if_neg h1, if_neg h2]
      rw [hupd]
      refine ⟨hspec.1, ?_, hspec.2.1, ?_, hspec.2.2.1, ?_⟩
      · rw [hspec.1]
        have := hspec.2.1
        linarith
      · intro hnil
        exact absurd (by simp [hnil]) h2
      · intro hfull
        apply hspec.2.2.2
        rw [div_mul_cancel₀]
        · exact hfull
        · exact ne_of_gt hlen

/-- Plant used by the C5 witness: plenty of energy for an equal split. -/
def c5wPlant : PlantS := ⟨100, 100, 2, [(1, 0), (2, 0)], true⟩

/-- Witness for C5 amended at a concrete plant and dt = 1. -/
theorem C5_plant_distribution_witness :
    ((0:ℚ) ≤ 1 ∧ 0 < c5wPlant.consumption_time ∧ 0 ≤ c5wPlant.max_energy ∧
     0 ≤ c5wPlant.energy) ∧
    (((c5wPlant.update 1).2.map Prod.snd).sum =
        c5wPlant.energy - (c5wPlant.update 1).1.energy ∧
     ((c5wPlant.update 1).2.map Prod.snd).sum ≤ c5wPlant.energy ∧
     0 ≤ (c5wPlant.update 1).1.energy ∧
     (c5wPlant.consumers = [] →
       (c5wPlant.update 1).1.energy = c5wPlant.energy ∧
       (c5wPlant.update 1).2 = []) ∧
     (∀ g ∈ (c5wPlant.update 1).2,
       0 ≤ g.2 ∧
       g.2 ≤ c5wPlant.max_energy / c5wPlant.consumption_time * 1 /
         c5wPlant.consumers.length) ∧
     (c5wPlant.max_energy / c5wPlant.consumption_time * 1 ≤ c5wPlant.energy →
       ∀ g ∈ (c5wPlant.update 1).2,
         g.2 = c5wPlant.max_energy / c5wPlant.consumption_time * 1 /
           c5wPlant.consumers.length)) :=
  ⟨⟨by norm_num, by norm_num [c5wPlant], by norm_num [c5wPlant],
    by norm_num [c5wPlant]⟩,
   C5_plant_distribution c5wPlant 1 (by norm_num) (by norm_num [c5wPlant])
     (by norm_num [c5wPlant]) (by norm_num [c5wPlant])⟩

/-! ## Items and inventory (src/core/items.py, src/core/inventory.py)

ItemT itself is declared further up, before the creatures: the smart
creature's damage mitigation reads the equipped armor's ITEM_DB entry. -/

/-- The weight column of ITEM_DB (the ItemStats field the inventory and
crafting code reads).  COAL has no ITEM_DB entry in the source, hence
none. -/
def ITEM_DB_weight : ItemT → Option ℚ
  | ItemT.wood => some (1 / 2)
  | ItemT.stone => some 1
  | ItemT.copper_ore => some (6 / 5)
  | ItemT.iron_ore => some (3 / 2)
  | ItemT.coal => none
  | ItemT.meat => some (1 / 5)
  | ItemT.leather => some (1 / 10)
  | ItemT.cooked_meat => some (1 / 5)
  | ItemT.healing_herb => some (1 / 10)
  | ItemT.copper_ingot => some 1
  | ItemT.iron_ingot => some (13 / 10)
  | ItemT.stone_pickaxe => some 2
  | ItemT.copper_pickaxe => some (5 / 2)
  | ItemT.iron_pickaxe => some 3
  | ItemT.stone_spear => some (3 / 2)
  | ItemT.copper_spear => some 2
  | ItemT.iron_spear => some (5 / 2)
  | ItemT.leather_bag => some (1 / 2)
  | ItemT.leather_armor => some 1

/-- Inventory state: the _items dictionary as a count function (an
absent key and a zero count weigh and compare the same everywhere the
code reads _items), plus base capacity and the equipment modifier. -/
structure InventoryS where
  counts : ItemT → Nat
  base_capacity : ℚ
  capacity_modifier : ℚ

/-- Inventory.max_capacity. -/
def InventoryS.max_capacity (inv : InventoryS) : ℚ :=
  inv.base_capacity + inv.capacity_modifier

/-- Inventory.current_weight: sum of weight * count over the items (a
missing ITEM_DB entry contributes nothing, as in the source). -/
def InventoryS.current_weight (inv : InventoryS) : ℚ :=
  ∑ s : ItemT, (ITEM_DB_weight s).getD 0 * (inv.counts s : ℚ)

/-- Inventory.has_item. -/
def InventoryS.has_item (inv : InventoryS) (t : ItemT) (amount : Nat) : Bool :=
  amount ≤ inv.counts t

/-- Write a new count for one item type (the dictionary store
self._items[item_type] = v). -/
def InventoryS.setCount (inv : InventoryS) (t : ItemT) (v : Nat) :
    InventoryS :=
  { inv with counts := Function.update inv.counts t v }

/-- Inventory.add_item: refuse nonpositive amounts and unknown items;
otherwise compute max_fit = int(remaining_capacity / weight), add
to_add = min(amount, max_fit) items when positive, and return the
amount actually added.  int() truncates toward zero where the floor
rounds down; they agree whenever remaining_capacity >= 0, which the
claims guarantee, and a nonpositive to_add returns 0 items here where
the source returns the (then nonpositive) to_add itself. -/
def InventoryS.add_item (inv : InventoryS) (t : ItemT) (amount : Nat) :
    Nat × InventoryS :=
  if amount = 0 then (0, inv)
  else
    match ITEM_DB_weight t with
    | none => (0, inv)
    | some w =>
      let max_fit : Int := ⌊(inv.max_capacity - inv.current_weight) / w⌋
      let to_add : Int := min (amount : Int) max_fit
      if 0 < to_add then
        (to_add.toNat, inv.setCount t (inv.counts t + to_add.toNat))
      else (0, inv)

/-- Inventory.remove_item: succeed and subtract exactly when at least
amount items are held (deleting the key at zero is invisible in the
count-function representation).  The source would raise a KeyError for
amount = 0 on an absent key; the claims only involve positive
amounts. -/
def InventoryS.remove_item (inv : InventoryS) (t : ItemT) (amount : Nat) :
    Bool × InventoryS :=
  if amount ≤ inv.counts t then
    (true, inv.setCount t (inv.counts t - amount))
  else (false, inv)

/-! ## Crafting (src/core/crafting.py) -/

/-- A Recipe: result item, produced amount, ingredients dictionary as
an insertion-ordered association list. -/
structure RecipeS where
  result : ItemT
  amount : Nat
  ingredients : List (ItemT × Nat)

/-- The local ingredients_weight of CraftingSystem.craft: total weight
of the recipe's ingredients. -/
def ingredientsWeight (ing : List (ItemT × Nat)) : ℚ :=
  (ing.map (fun ic => (ITEM_DB_weight ic.1).getD 0 * (ic.2 : ℚ))).sum

/-- The removal loop of CraftingSystem.craft, deducting the ingredients
in dictionary order. -/
def removeIngredients (ing : List (ItemT × Nat)) (inv : InventoryS) :
    InventoryS :=
  ing.foldl (fun acc ic => (acc.remove_item ic.1 ic.2).2) inv

/-- CraftingSystem.craft: re-check the ingredients, check that the
projected weight (current - ingredients + result) fits the capacity,
then remove every ingredient and add the result.  Both failure paths
return False before any mutation.  The source reads
ITEM_DB[item].weight directly (it would raise on an item without a DB
entry, which no recipe contains); here the weight lookup defaults to 0
and the theorems assume DB entries exist. -/
def CraftingSystem.craft (recipe : RecipeS) (inv : InventoryS) :
    Bool × InventoryS :=
  if ¬ (∀ ic ∈ recipe.ingredients, (inv.has_item ic.1 ic.2) = true) then
    (false, inv)
  else
    if inv.current_weight - ingredientsWeight recipe.ingredients +
        (ITEM_DB_weight recipe.result).getD 0 * (recipe.amount : ℚ) >
        inv.max_capacity then
      (false, inv)
    else
      (true,
       ((removeIngredients recipe.ingredients inv).add_item recipe.result
          recipe.amount).2)

/-! ### Inventory and crafting helper lemmas -/

theorem ITEM_DB_weight_pos (t : ItemT) (w : ℚ)
    (h : ITEM_DB_weight t = some w) : 0 < w := by
  cases t <;> simp [ITEM_DB_weight] at h <;> rw [← h] <;> norm_num

theorem current_weight_update (inv : InventoryS) (t : ItemT) (v : Nat) :
    (inv.setCount t v).current_weight =
      inv.current_weight - (ITEM_DB_weight t).getD 0 * (inv.counts t : ℚ) +
        (ITEM_DB_weight t).getD 0 * (v : ℚ) := by
  unfold InventoryS.setCount InventoryS.current_weight
  have h : ∀ s : ItemT,
      (ITEM_DB_weight s).getD 0 * ((Function.update inv.counts t v s : Nat) : ℚ) =
        (ITEM_DB_weight s).getD 0 * (inv.counts s : ℚ) +
          (if s = t then
            (ITEM_DB_weight t).getD 0 * (v : ℚ) -
              (ITEM_DB_weight t).getD 0 * (inv.counts t : ℚ)
          else 0) := by
    intro s
    by_cases hs : s = t
    · subst hs
      simp [Function.update]
    · simp [Function.update, hs]
  rw [Finset.sum_congr rfl (fun s _ => h s), Finset.sum_add_distrib]
  rw [Finset.sum_ite_eq' Finset.univ t]
  simp only [Finset.mem_univ, if_true]
  ring


theorem add_item_none (inv : InventoryS) (t : ItemT) (amount : Nat)
    (h : ITEM_DB_weight t = none) : inv.add_item t amount = (0, inv) := by
  unfold InventoryS.add_item
  by_cases ha : amount = 0
  · rw [if_pos ha]
  · rw [if_neg ha, h]

theorem fits_iff_le_floor {w R : ℚ} (hw : 0 < w) (k : Nat) :
    w * (k : ℚ) ≤ R ↔ (k : Int) ≤ ⌊R / w⌋ := by
  rw [Int.le_floor]
  push_cast
  rw [le_div_iff₀ hw]
  constructor <;> intro h <;> linarith

/-- C7: Inventory.add_item never pushes current_weight above
max_capacity, and returns exactly the added quantity: the largest whole
number of items of that type that fits in the remaining capacity,
capped at the requested amount (possibly 0, and always 0 for an item
without an ITEM_DB entry, which can never be added).  Totality of the
embedding, with every ITEM_DB weight positive, reflects that the source
never raises. -/
theorem C7_add_item_capacity_and_exact_fit (inv : InventoryS) (t : ItemT)
    (amount : Nat) (hcw : inv.current_weight ≤ inv.max_capacity) :
    ((inv.add_item t amount).2.current_weight ≤ inv.max_capacity) ∧
    ((inv.add_item t amount).1 ≤ amount) ∧
    (∀ w, ITEM_DB_weight t = some w →
      (inv.add_item t amount).1 =
        min amount ⌊(inv.max_capacity - inv.current_weight) / w⌋.toNat ∧
      (inv.add_item t amount).2.current_weight =
        inv.current_weight + w * ((inv.add_item t amount).1 : ℚ) ∧
      (∀ k : Nat, k ≤ amount →
        (inv.current_weight + w * (k : ℚ) ≤ inv.max_capacity ↔
          k ≤ (inv.add_item t amount).1))) ∧
    (ITEM_DB_weight t = none → inv.add_item t amount = (0, inv)) := by
  cases hdb : ITEM_DB_weight t with
  | none =>
    rw [add_item_none inv t amount hdb]
    exact ⟨hcw, Nat.zero_le _, fun w hw => Option.noConfusion hw,
      fun _ => rfl⟩
  | some w0 =>
    have hw0 : 0 < w0 := ITEM_DB_weight_pos t w0 hdb
    have hR : 0 ≤ inv.max_capacity - inv.current_weight := by linarith
    have hF : 0 ≤ ⌊(inv.max_capacity - inv.current_weight) / w0⌋ :=
      Int.floor_nonneg.mpr (div_nonneg hR hw0.le)
    have hwF : w0 * ((⌊(inv.max_capacity - inv.current_weight) / w0⌋ : Int) : ℚ) ≤
        inv.max_capacity - inv.current_weight := by
      have h1 : ((⌊(inv.max_capacity - inv.current_weight) / w0⌋ : Int) : ℚ) ≤
          (inv.max_capacity - inv.current_weight) / w0 := Int.floor_le _
      calc w0 * ((⌊(inv.max_capacity - inv.current_weight) / w0⌋ : Int) : ℚ)
          = ((⌊(inv.max_capacity - inv.current_weight) / w0⌋ : Int) : ℚ) * w0 := by
            ring
        _ ≤ (inv.max_capacity - inv.current_weight) / w0 * w0 :=
            mul_le_mul_of_nonneg_right h1 hw0.le
        _ = inv.max_capacity - inv.current_weight := by
            field_simp
    by_cases ha : amount = 0
    · have hstep : inv.add_item t amount = (0, inv) := by
        unfold InventoryS.add_item
        rw [if_pos ha]
      rw [hstep, ha]
      refine ⟨hcw, le_refl _, ?_, fun hnone => Option.noConfusion hnone⟩
      intro w hw
      obtain rfl : w0 = w := (Option.some.injEq _ _).mp hw
      refine ⟨by simp, by simp, ?_⟩
      intro k hk
      obtain rfl : k = 0 := Nat.le_zero.mp hk
      simp only [Nat.cast_zero, mul_zero, add_zero, le_refl, iff_true]
      exact hcw
    · have hstep : inv.add_item t amount =
          (if 0 < min (amount : Int)
              ⌊(inv.max_capacity - inv.current_weight) / w0⌋
           then ((min (amount : Int)
                    ⌊(inv.max_capacity - inv.current_weight) / w0⌋).toNat,
                 inv.setCount t (inv.counts t +
                   (min (amount : Int)
                     ⌊(inv.max_capacity - inv.current_weight) / w0⌋).toNat))
           else (0, inv)) := by
        unfold InventoryS.add_item
        rw [if_neg ha, hdb]
      by_cases hpos : 0 < min (amount : Int)
          ⌊(inv.max_capacity - inv.current_weight) / w0⌋
      · rw [hstep, if_pos hpos]
        have hcwnew : (inv.setCount t (inv.counts t +
              (min (amount : Int)
                ⌊(inv.max_capacity - inv.current_weight) / w0⌋).toNat)).current_weight =
            inv.current_weight + w0 * (((min (amount : Int)
              ⌊(inv.max_capacity - inv.current_weight) / w0⌋).toNat : Nat) : ℚ) := by
          rw [current_weight_update, hdb, Option.getD_some]
          push_cast
          ring
        have htle : w0 * (((min (amount : Int)
            ⌊(inv.max_capacity - inv.current_weight) / w0⌋).toNat : Nat) : ℚ) ≤
            inv.max_capacity - inv.current_weight := by
          calc w0 * (((min (amount : Int)
              ⌊(inv.max_capacity - inv.current_weight) / w0⌋).toNat : Nat) : ℚ)
              ≤ w0 * ((⌊(inv.max_capacity - inv.current_weight) / w0⌋ : Int) : ℚ) := by
                apply mul_le_mul_of_nonneg_left _ hw0.le
                have hh : (((min (amount : Int)
                    ⌊(inv.max_capacity - inv.current_weight) / w0⌋).toNat : Int)) ≤
                    ⌊(inv.max_capacity - inv.current_weight) / w0⌋ := by omega
                exact_mod_cast hh
            _ ≤ inv.max_capacity - inv.current_weight := hwF
        refine ⟨by rw [hcwnew]; linarith, by omega, ?_,
          fun hnone => Option.noConfusion hnone⟩
        intro w hw
        obtain rfl : w0 = w := (Option.some.injEq _ _).mp hw
        refine ⟨by omega, hcwnew, ?_⟩
        intro k hk
        constructor
        · intro hfit
          have hkF : (k : Int) ≤
              ⌊(inv.max_capacity - inv.current_weight) / w0⌋ :=
            (fits_iff_le_floor hw0 k).mp (by linarith)
          omega
        · intro hkr
          have hkF : (k : Int) ≤
              ⌊(inv.max_capacity - inv.current_weight) / w0⌋ := by omega
          have := (fits_iff_le_floor hw0 k).mpr hkF
          linarith
      · rw [hstep, if_neg hpos]
        have hF0 : ⌊(inv.max_capacity - inv.current_weight) / w0⌋ = 0 := by
          omega
        refine ⟨hcw, Nat.zero_le _, ?_, fun hnone => Option.noConfusion hnone⟩
        intro w hw
        obtain rfl : w0 = w := (Option.some.injEq _ _).mp hw
        refine ⟨by omega, by simp, ?_⟩
        intro k hk
        constructor
        · intro hfit
          have hkF : (k : Int) ≤
              ⌊(inv.max_capacity - inv.current_weight) / w0⌋ :=
            (fits_iff_le_floor hw0 k).mp (by linarith)
          omega
        · intro hkr
          obtain rfl : k = 0 := by omega
          simpa using hcw

/-- Empty inventory with capacity 30 used by the C7 witness. -/
def c7Inv : InventoryS := ⟨fun _ => 0, 30, 0⟩

/-- Witness for C7: adding 100 wood to an empty 30-capacity inventory. -/
theorem C7_add_item_capacity_and_exact_fit_witness :
    (c7Inv.current_weight ≤ c7Inv.max_capacity) ∧
    (((c7Inv.add_item ItemT.wood 100).2.current_weight ≤
        c7Inv.max_capacity) ∧
     ((c7Inv.add_item ItemT.wood 100).1 ≤ 100) ∧
     (∀ w, ITEM_DB_weight ItemT.wood = some w →
       (c7Inv.add_item ItemT.wood 100).1 =
         min 100 ⌊(c7Inv.max_capacity - c7Inv.current_weight) / w⌋.toNat ∧
       (c7Inv.add_item ItemT.wood 100).2.current_weight =
         c7Inv.current_weight + w * ((c7Inv.add_item ItemT.wood 100).1 : ℚ) ∧
       (∀ k : Nat, k ≤ 100 →
         (c7Inv.current_weight + w * (k : ℚ) ≤ c7Inv.max_capacity ↔
           k ≤ (c7Inv.add_item ItemT.wood 100).1))) ∧
     (ITEM_DB_weight ItemT.wood = none →
       c7Inv.add_item ItemT.wood 100 = (0, c7Inv))) :=
  ⟨by simp [InventoryS.current_weight, InventoryS.max_capacity, c7Inv],
   C7_add_item_capacity_and_exact_fit c7Inv ItemT.wood 100
     (by simp [InventoryS.current_weight, InventoryS.max_capacity, c7Inv])⟩

/-- Total count of an item across an ingredient list. -/
def ingAmt (ing : List (ItemT × Nat)) (s : ItemT) : Nat :=
  ((ing.filter (fun ic => ic.1 = s)).map Prod.snd).sum

theorem removeIngredients_spec (ing : List (ItemT × Nat)) :
    ∀ inv : InventoryS,
      (ing.map Prod.fst).Nodup →
      (∀ ic ∈ ing, ic.2 ≤ inv.counts ic.1) →
      (∀ s, (removeIngredients ing inv).counts s =
          inv.counts s - ingAmt ing s) ∧
      (removeIngredients ing inv).base_capacity = inv.base_capacity ∧
      (removeIngredients ing inv).capacity_modifier =
        inv.capacity_modifier ∧
      (removeIngredients ing inv).current_weight =
        inv.current_weight - ingredientsWeight ing := by
  induction ing with
  | nil =>
    intro inv _ _
    refine ⟨fun s => ?_, rfl, rfl, ?_⟩
    · simp [removeIngredients, ingAmt]
    · simp [removeIngredients, ingredientsWeight]
  | cons tc rest ih =>
    intro inv hnd hhave
    obtain ⟨t, c⟩ := tc
    have hct : c ≤ inv.counts t := hhave (t, c) (List.mem_cons_self _ _)
    have hrm : (inv.remove_item t c).2 = inv.setCount t (inv.counts t - c) := by
      unfold InventoryS.remove_item
      rw [if_pos hct]
    have hfold : removeIngredients ((t, c) :: rest) inv =
        removeIngredients rest (inv.setCount t (inv.counts t - c)) := by
      unfold removeIngredients
      rw [List.foldl_cons]
      rw [show (inv.remove_item t c).2 = inv.setCount t (inv.counts t - c)
        from hrm]
    rw [List.map_cons] at hnd
    have hnott : t ∉ rest.map Prod.fst := (List.nodup_cons.mp hnd).1
    have hnd2 : (rest.map Prod.fst).Nodup := (List.nodup_cons.mp hnd).2
    have hhave2 : ∀ ic ∈ rest,
        ic.2 ≤ (inv.setCount t (inv.counts t - c)).counts ic.1 := by
      intro ic hic
      have hne : ic.1 ≠ t := by
        intro he
        exact hnott (he ▸ List.mem_map_of_mem Prod.fst hic)
      have : (inv.setCount t (inv.counts t - c)).counts ic.1 =
          inv.counts ic.1 := by
        simp [InventoryS.setCount, Function.update, hne]
      rw [this]
      exact hhave ic (List.mem_cons_of_mem _ hic)
    obtain ⟨ihc, ihb, ihm, ihw⟩ :=
      ih (inv.setCount t (inv.counts t - c)) hnd2 hhave2
    rw [hfold]
    refine ⟨fun s => ?_, by rw [ihb]; rfl, by rw [ihm]; rfl, ?_⟩
    · rw [ihc s]
      by_cases hs : s = t
      · subst hs
        have h1 : (inv.setCount s (inv.counts s - c)).counts s =
            inv.counts s - c := by
          simp [InventoryS.setCount, Function.update]
        rw [h1]
        have h2 : ingAmt ((s, c) :: rest) s = c + ingAmt rest s := by
          simp [ingAmt, List.filter]
        rw [h2]
        omega
      · have h1 : (inv.setCount t (inv.counts t - c)).counts s =
            inv.counts s := by
          simp [InventoryS.setCount, Function.update, hs]
        rw [h1]
        have h2 : ingAmt ((t, c) :: rest) s = ingAmt rest s := by
          have : ¬ (t = s) := fun he => hs he.symm
          simp [ingAmt, List.filter, this]
        rw [h2]
    · rw [ihw, current_weight_update]
      have hcast : ((inv.counts t - c : Nat) : ℚ) =
          (inv.counts t : ℚ) - (c : ℚ) := by
        push_cast [hct]
        ring
      rw [hcast]
      have h2 : ingredientsWeight ((t, c) :: rest) =
          (ITEM_DB_weight t).getD 0 * (c : ℚ) + ingredientsWeight rest := by
        simp [ingredientsWeight]
      rw [h2]
      ring

theorem has_item_iff (inv : InventoryS) (t : ItemT) (a : Nat) :
    (inv.has_item t a) = true ↔ a ≤ inv.counts t := by
  simp [InventoryS.has_item]

theorem add_item_full (inv : InventoryS) (t : ItemT) (amount : Nat) (w : ℚ)
    (hw : ITEM_DB_weight t = some w) (hna : amount ≠ 0)
    (hfit : w * (amount : ℚ) ≤ inv.max_capacity - inv.current_weight) :
    inv.add_item t amount = (amount, inv.setCount t (inv.counts t + amount)) := by
  have hw0 : 0 < w := ITEM_DB_weight_pos t w hw
  have hkF : (amount : Int) ≤ ⌊(inv.max_capacity - inv.current_weight) / w⌋ :=
    (fits_iff_le_floor hw0 amount).mp hfit
  have hmin : min (amount : Int)
      ⌊(inv.max_capacity - inv.current_weight) / w⌋ = amount :=
    min_eq_left hkF
  unfold InventoryS.add_item
  rw [if_neg hna, hw]
  show (if 0 < min (amount : Int)
      ⌊(inv.max_capacity - inv.current_weight) / w⌋ then
    ((min (amount : Int)
        ⌊(inv.max_capacity - inv.current_weight) / w⌋).toNat,
     inv.setCount t (inv.counts t +
       (min (amount : Int)
         ⌊(inv.max_capacity - inv.current_weight) / w⌋).toNat))
  else (0, inv)) = _
  rw [hmin, if_pos (by omega : (0:Int) < (amount : Int))]
  simp

/-- C6: CraftingSystem.craft either fully succeeds — every ingredient
deducted in its required quantity, the result item added in the
recipe's amount, capacity unchanged and final weight within it — or
returns False with the inventory completely unchanged; success happens
exactly when all ingredients are held and the projected weight fits.
Hypotheses: ingredient keys are distinct and positive (as in every
recipe of RECIPES) and the recipe's items have ITEM_DB entries. -/
theorem C6_craft_atomicity (recipe : RecipeS) (inv : InventoryS)
    (hnd : (recipe.ingredients.map Prod.fst).Nodup)
    (hcpos : ∀ ic ∈ recipe.ingredients, 1 ≤ ic.2)
    (hdbi : ∀ ic ∈ recipe.ingredients, (ITEM_DB_weight ic.1).isSome = true)
    (hdbr : (ITEM_DB_weight recipe.result).isSome = true)
    (hra : 1 ≤ recipe.amount) :
    ((CraftingSystem.craft recipe inv).1 = false →
      (CraftingSystem.craft recipe inv).2 = inv) ∧
    ((CraftingSystem.craft recipe inv).1 = true →
      (∀ s, (CraftingSystem.craft recipe inv).2.counts s =
        inv.counts s - ingAmt recipe.ingredients s +
          (if s = recipe.result then recipe.amount else 0)) ∧
      (CraftingSystem.craft recipe inv).2.max_capacity = inv.max_capacity ∧
      (CraftingSystem.craft recipe inv).2.current_weight =
        inv.current_weight - ingredientsWeight recipe.ingredients +
          (ITEM_DB_weight recipe.result).getD 0 * (recipe.amount : ℚ) ∧
      (CraftingSystem.craft recipe inv).2.current_weight ≤
        inv.max_capacity) ∧
    ((CraftingSystem.craft recipe inv).1 = true ↔
      (∀ ic ∈ recipe.ingredients, ic.2 ≤ inv.counts ic.1) ∧
      inv.current_weight - ingredientsWeight recipe.ingredients +
        (ITEM_DB_weight recipe.result).getD 0 * (recipe.amount : ℚ) ≤
        inv.max_capacity) := by
  by_cases h1 : ∀ ic ∈ recipe.ingredients, (inv.has_item ic.1 ic.2) = true
  · obtain ⟨wr, hwr⟩ : ∃ wr, ITEM_DB_weight recipe.result = some wr :=
      Option.isSome_iff_exists.mp hdbr
    have hall : ∀ ic ∈ recipe.ingredients, ic.2 ≤ inv.counts ic.1 :=
      fun ic h => (has_item_iff inv ic.1 ic.2).mp (h1 ic h)
    by_cases h2 : inv.current_weight - ingredientsWeight recipe.ingredients +
        (ITEM_DB_weight recipe.result).getD 0 * (recipe.amount : ℚ) >
        inv.max_capacity
    · have hstep : CraftingSystem.craft recipe inv = (false, inv) := by
        unfold CraftingSystem.craft
        rw [if_neg (not_not_intro h1), if_pos h2]
      rw [hstep]
      refine ⟨fun _ => rfl, fun hc => absurd hc (by simp), ?_⟩
      exact Iff.intro (fun hc => absurd hc (by simp))
        (fun hrhs => absurd h2 (not_lt.mpr hrhs.2))
    · obtain ⟨hc2, hb2, hm2, hw2⟩ :=
        removeIngredients_spec recipe.ingredients inv hnd hall
      have hcap2 : (removeIngredients recipe.ingredients inv).max_capacity =
          inv.max_capacity := by
        unfold InventoryS.max_capacity
        rw [hb2, hm2]
      have hfit : wr * (recipe.amount : ℚ) ≤
          (removeIngredients recipe.ingredients inv).max_capacity -
            (removeIngredients recipe.ingredients inv).current_weight := by
        rw [hcap2, hw2]
        rw [hwr] at h2
        simp only [Option.getD_some] at h2
        push_neg at h2
        linarith
      have hna : recipe.amount ≠ 0 := by omega
      have hadd := add_item_full (removeIngredients recipe.ingredients inv)
        recipe.result recipe.amount wr hwr hna hfit
      have hstep : CraftingSystem.craft recipe inv =
          (true, ((removeIngredients recipe.ingredients inv).add_item
            recipe.result recipe.amount).2) := by
        unfold CraftingSystem.craft
        rw [if_neg (not_not_intro h1), if_neg h2]
      rw [hstep, hadd]
      have hcwfin : ((removeIngredients recipe.ingredients inv).setCount
            recipe.result
            ((removeIngredients recipe.ingredients inv).counts recipe.result +
              recipe.amount)).current_weight =
          inv.current_weight - ingredientsWeight recipe.ingredients +
            wr * (recipe.amount : ℚ) := by
        rw [current_weight_update, hwr, Option.getD_some, hw2]
        push_cast
        ring
      refine ⟨fun hc => absurd hc (by simp), ?_, ?_⟩
      · intro _
        refine ⟨?_, ?_, ?_, ?_⟩
        · intro s
          by_cases hs : s = recipe.result
          · have hup : ((removeIngredients recipe.ingredients inv).setCount
                recipe.result
                ((removeIngredients recipe.ingredients inv).counts
                    recipe.result + recipe.amount)).counts s =
                (removeIngredients recipe.ingredients inv).counts
                    recipe.result + recipe.amount := by
              rw [hs]
              simp [InventoryS.setCount, Function.update]
            rw [hup, hc2 recipe.result, if_pos hs, hs]
          · have hup : ((removeIngredients recipe.ingredients inv).setCount
                recipe.result
                ((removeIngredients recipe.ingredients inv).counts
                    recipe.result + recipe.amount)).counts s =
                (removeIngredients recipe.ingredients inv).counts s := by
              simp [InventoryS.setCount, Function.update, hs]
            rw [hup, hc2 s, if_neg hs]
            omega
        · unfold InventoryS.max_capacity at hcap2 ⊢
          simpa [InventoryS.setCount] using hcap2
        · rw [hcwfin, hwr, Option.getD_some]
        · rw [hcwfin]
          rw [hwr] at h2
          simp only [Option.getD_some] at h2
          push_neg at h2
          linarith
      · simp only [true_iff]
        refine ⟨hall, not_lt.mp h2⟩
  · have hstep : CraftingSystem.craft recipe inv = (false, inv) := by
      unfold CraftingSystem.craft
      rw [if_pos h1]
    rw [hstep]
    refine ⟨fun _ => rfl, fun hc => absurd hc (by simp), ?_⟩
    exact Iff.intro (fun hc => absurd hc (by simp))
      (fun hrhs =>
        absurd (fun ic h => (has_item_iff inv ic.1 ic.2).mpr (hrhs.1 ic h)) h1)

/-- The STONE_PICKAXE recipe of RECIPES: 1 result from 2 wood and
3 stone. -/
def c6Recipe : RecipeS :=
  ⟨ItemT.stone_pickaxe, 1, [(ItemT.wood, 2), (ItemT.stone, 3)]⟩

/-- Inventory holding exactly the pickaxe ingredients, capacity 30. -/
def c6Inv : InventoryS :=
  ⟨fun s => if s = ItemT.wood then 2 else if s = ItemT.stone then 3 else 0,
   30, 0⟩

/-- Witness for C6 at the stone-pickaxe recipe and a concrete
inventory. -/
theorem C6_craft_atomicity_witness :
    ((c6Recipe.ingredients.map Prod.fst).Nodup ∧
     (∀ ic ∈ c6Recipe.ingredients, 1 ≤ ic.2) ∧
     (∀ ic ∈ c6Recipe.ingredients, (ITEM_DB_weight ic.1).isSome = true) ∧
     (ITEM_DB_weight c6Recipe.result).isSome = true ∧
     1 ≤ c6Recipe.amount) ∧
    (((CraftingSystem.craft c6Recipe c6Inv).1 = false →
       (CraftingSystem.craft c6Recipe c6Inv).2 = c6Inv) ∧
     ((CraftingSystem.craft c6Recipe c6Inv).1 = true →
       (∀ s, (CraftingSystem.craft c6Recipe c6Inv).2.counts s =
         c6Inv.counts s - ingAmt c6Recipe.ingredients s +
           (if s = c6Recipe.result then c6Recipe.amount else 0)) ∧
       (CraftingSystem.craft c6Recipe c6Inv).2.max_capacity =
         c6Inv.max_capacity ∧
       (CraftingSystem.craft c6Recipe c6Inv).2.current_weight =
         c6Inv.current_weight - ingredientsWeight c6Recipe.ingredients +
           (ITEM_DB_weight c6Recipe.result).getD 0 * (c6Recipe.amount : ℚ) ∧
       (CraftingSystem.craft c6Recipe c6Inv).2.current_weight ≤
         c6Inv.max_capacity) ∧
     ((CraftingSystem.craft c6Recipe c6Inv).1 = true ↔
       (∀ ic ∈ c6Recipe.ingredients, ic.2 ≤ c6Inv.counts ic.1) ∧
       c6Inv.current_weight - ingredientsWeight c6Recipe.ingredients +
         (ITEM_DB_weight c6Recipe.result).getD 0 * (c6Recipe.amount : ℚ) ≤
         c6Inv.max_capacity)) :=
  ⟨⟨by decide, by decide, by decide, by decide, by decide⟩,
   C6_craft_atomicity c6Recipe c6Inv (by decide) (by decide) (by decide)
     (by decide) (by decide)⟩

/-! ## Resource nodes (src/core/resource.py, class ResourceNode) -/

/-- ResourceNode state: remaining amount, max_amount, yield_cost, alive
flag, and the miners dictionary as an insertion-ordered list of
(entity id, tool_efficiency, accumulated). -/
structure NodeS where
  amount : ℚ
  max_amount : ℚ
  yield_cost : ℚ
  is_alive : Bool
  miners : List (Nat × ℚ × ℚ)
  deriving Repr, DecidableEq

/-- The miner loop of ResourceNode.update, processing miners in
dictionary order with the running amount: effort = 5 * efficiency * dt,
capped to amount * yield_cost when the node cannot cover it; the effort
accumulates, the amount drops by effort / yield_cost, and once the
accumulator reaches yield_cost, count = int(accumulated // yield_cost)
whole items are emitted and count * yield_cost is carried off the
accumulator.  Returns (final amount, updated miners, items_given in
order). -/
def mineStep (yc dt : ℚ) :
    ℚ → List (Nat × ℚ × ℚ) → ℚ × List (Nat × ℚ × ℚ) × List (Nat × Nat)
  | amt, [] => (amt, [], [])
  | amt, m :: rest =>
      let effort0 := 5 * m.2.1 * dt
      let effort := if amt < effort0 / yc then amt * yc else effort0
      let acc1 := m.2.2 + effort
      let amt1 := amt - effort / yc
      if yc ≤ acc1 then
        let count := ⌊acc1 / yc⌋.toNat
        let r := mineStep yc dt amt1 rest
        (r.1, (m.1, m.2.1, acc1 - (count : ℚ) * yc) :: r.2.1,
         (m.1, count) :: r.2.2)
      else
        let r := mineStep yc dt amt1 rest
        (r.1, (m.1, m.2.1, acc1) :: r.2.1, r.2.2)

/-- ResourceNode.update(dt): a node with amount <= 0 dies immediately
and yields nothing; otherwise the miner loop runs and the node dies
when the remaining amount is <= 0.1. -/
def NodeS.update (n : NodeS) (dt : ℚ) : NodeS × List (Nat × Nat) :=
  if n.amount ≤ 0 then ({ n with is_alive := false }, [])
  else
    let r := mineStep n.yield_cost dt n.amount n.miners
    ({ n with
        amount := r.1
        miners := r.2.1
        is_alive := if r.1 ≤ 1 / 10 then false else n.is_alive }, r.2.2)

/-! ### Resource depletion (claim C8) -/

/-- Node used by the C8 counterexample: amount 0.15, one miner. -/
def c8Node : NodeS := ⟨3 / 20, 10, 10, true, [(0, 1, 0)]⟩

/-- C8 counterexample: after one update with dt = 0.2 the node of
amount 0.15 has amount 0.05 — strictly positive, not depleted to 0 —
yet is_alive has become false, because the code kills a node at
amount <= 0.1, refuting the claim that the alive flag becomes false
exactly at amount 0. -/
theorem C8_dies_at_zero_counterexample :
    0 < ((c8Node.update (1 / 5)).1).amount ∧
    ((c8Node.update (1 / 5)).1).is_alive = false := by
  norm_num [c8Node, NodeS.update, mineStep]

/-- The scenario start node of the claim: amount 10, yield_cost 10, one
miner with efficiency 1. -/
def c8Start : NodeS := ⟨10, 10, 10, true, [(0, 1, 0)]⟩

/-- One world tick of the scenario: update the node, accumulate the
items pushed to the single miner (as World.update does via
inventory.add_item). -/
def mineTick (st : NodeS × Nat) (d : ℚ) : NodeS × Nat :=
  ((st.1.update d).1, st.2 + ((st.1.update d).2.map Prod.snd).sum)

/-- Run the scenario over a list of tick durations. -/
def runMining (dts : List ℚ) : NodeS × Nat :=
  dts.foldl mineTick (c8Start, 0)

/-- Invariant of the mining scenario after ticks of total duration S:
the yield cost is 10, the single miner's accumulator a satisfies
0 <= a < 10 and 10 * items + a equals the total applied effort
(10 - amount) * 10; a live node has amount > 0.1 and has absorbed the
full effort 5 * S; a dead node has amount <= 0.1. -/
def MineInv (st : NodeS × Nat) (S : ℚ) : Prop :=
  st.1.yield_cost = 10 ∧
  (∃ a : ℚ, st.1.miners = [(0, 1, a)] ∧ 0 ≤ a ∧ a < 10 ∧
    (st.2 : ℚ) * 10 + a = (10 - st.1.amount) * 10) ∧
  0 ≤ st.1.amount ∧
  (st.1.is_alive = true →
    1 / 10 < st.1.amount ∧ (10 - st.1.amount) * 10 = 5 * S) ∧
  (st.1.is_alive = false → st.1.amount ≤ 1 / 10)

theorem floor_emit_bounds {x : ℚ} (hx : (10:ℚ) ≤ x) :
    1 ≤ ⌊x / 10⌋ ∧
    ((⌊x / 10⌋.toNat : Nat) : ℚ) = ((⌊x / 10⌋ : Int) : ℚ) ∧
    0 ≤ x - ((⌊x / 10⌋ : Int) : ℚ) * 10 ∧
    x - ((⌊x / 10⌋ : Int) : ℚ) * 10 < 10 := by
  have hFle : ((⌊x / 10⌋ : Int) : ℚ) ≤ x / 10 := Int.floor_le _
  have hFgt : x / 10 < ((⌊x / 10⌋ : Int) : ℚ) + 1 := Int.lt_floor_add_one _
  have hF1 : 1 ≤ ⌊x / 10⌋ := by
    apply Int.le_floor.mpr
    push_cast
    rw [le_div_iff₀ (by norm_num : (0:ℚ) < 10)]
    linarith
  refine ⟨hF1, ?_, by linarith, by linarith⟩
  exact_mod_cast Int.toNat_of_nonneg (by omega)

theorem mineTick_inv (st : NodeS × Nat) (S d : ℚ) (hd : 0 ≤ d)
    (h : MineInv st S) : MineInv (mineTick st d) (S + d) := by
  obtain ⟨n, tot⟩ := st
  obtain ⟨hyc, ⟨a, hm, ha0, ha10, hacc⟩, hamt0, halive, hdead⟩ := h
  obtain ⟨amt, mx, yc, aliv, ms⟩ := n
  dsimp only at hyc hm hacc hamt0 halive hdead
  subst hyc
  subst hm
  unfold mineTick NodeS.update MineInv
  dsimp only
  by_cases hent : amt ≤ 0
  · rw [if_pos hent]
    dsimp only
    refine ⟨rfl, ⟨a, rfl, ha0, ha10, by simpa using hacc⟩,
      hamt0, fun hab => Bool.noConfusion hab, fun _ => by linarith⟩
  · rw [if_neg hent]
    dsimp only
    have hamtpos : 0 < amt := lt_of_not_le hent
    by_cases hcap : amt < 5 * d / 10
    · have heq : amt - amt * 10 / 10 = 0 := by field_simp
      by_cases hemit : (10:ℚ) ≤ a + amt * 10
      · obtain ⟨hF1, hFcast, hrem0, hrem10⟩ := floor_emit_bounds hemit
        have hms : mineStep 10 d amt [(0, 1, a)] =
            (amt - amt * 10 / 10,
             [(0, 1, a + amt * 10 -
                ((⌊(a + amt * 10) / 10⌋.toNat : Nat) : ℚ) * 10)],
             [(0, ⌊(a + amt * 10) / 10⌋.toNat)]) := by
          simp [mineStep, hcap, hemit]
        rw [hms]
        dsimp only
        rw [heq]
        refine ⟨rfl, ⟨a + amt * 10 -
            ((⌊(a + amt * 10) / 10⌋.toNat : Nat) : ℚ) * 10,
            rfl, by rw [hFcast]; linarith, by rw [hFcast]; linarith, ?_⟩,
          le_refl 0, ?_, fun _ => by norm_num⟩
        · show ((tot + (⌊(a + amt * 10) / 10⌋.toNat + 0) : Nat) : ℚ) * 10 +
            (a + amt * 10 -
              ((⌊(a + amt * 10) / 10⌋.toNat : Nat) : ℚ) * 10) =
            (10 - 0) * 10
          push_cast
          linarith [hacc]
        · intro hab
          rw [if_pos (by norm_num : (0:ℚ) ≤ 1/10)] at hab
          exact Bool.noConfusion hab
      · have hms : mineStep 10 d amt [(0, 1, a)] =
            (amt - amt * 10 / 10, [(0, 1, a + amt * 10)], []) := by
          simp [mineStep, hcap, hemit]
        rw [hms]
        dsimp only
        rw [heq]
        refine ⟨rfl, ⟨a + amt * 10, rfl, by linarith, by linarith, ?_⟩,
          le_refl 0, ?_, fun _ => by norm_num⟩
        · show ((tot + 0 : Nat) : ℚ) * 10 + (a + amt * 10) = (10 - 0) * 10
          push_cast
          linarith [hacc]
        · intro hab
          rw [if_pos (by norm_num : (0:ℚ) ≤ 1/10)] at hab
          exact Bool.noConfusion hab
    · have hamt1 : 0 ≤ amt - 5 * d / 10 := by
        have h1 := not_lt.mp hcap
        linarith
      have hd1 : amt - 5 * d / 10 ≤ amt := by
        have : 0 ≤ 5 * d / 10 := by positivity
        linarith
      by_cases hemit : (10:ℚ) ≤ a + 5 * d
      · obtain ⟨hF1, hFcast, hrem0, hrem10⟩ := floor_emit_bounds hemit
        have hms : mineStep 10 d amt [(0, 1, a)] =
            (amt - 5 * d / 10,
             [(0, 1, a + 5 * d -
                ((⌊(a + 5 * d) / 10⌋.toNat : Nat) : ℚ) * 10)],
             [(0, ⌊(a + 5 * d) / 10⌋.toNat)]) := by
          simp [mineStep, hcap, hemit]
        rw [hms]
        dsimp only
        refine ⟨rfl, ⟨a + 5 * d -
            ((⌊(a + 5 * d) / 10⌋.toNat : Nat) : ℚ) * 10,
            rfl, by rw [hFcast]; linarith, by rw [hFcast]; linarith, ?_⟩,
          hamt1, ?_, ?_⟩
        · show ((tot + (⌊(a + 5 * d) / 10⌋.toNat + 0) : Nat) : ℚ) * 10 +
            (a + 5 * d -
              ((⌊(a + 5 * d) / 10⌋.toNat : Nat) : ℚ) * 10) =
            (10 - (amt - 5 * d / 10)) * 10
          push_cast
          linarith [hacc]
        · intro hab
          by_cases hdie : amt - 5 * d / 10 ≤ 1 / 10
          · rw [if_pos hdie] at hab
            exact Bool.noConfusion hab
          · rw [if_neg hdie] at hab
            obtain ⟨hgt, heff⟩ := halive hab
            exact ⟨lt_of_not_le hdie, by linarith⟩
        · intro hab
          by_cases hdie : amt - 5 * d / 10 ≤ 1 / 10
          · exact hdie
          · rw [if_neg hdie] at hab
            have := hdead hab
            linarith
      · have hms : mineStep 10 d amt [(0, 1, a)] =
            (amt - 5 * d / 10, [(0, 1, a + 5 * d)], []) := by
          simp [mineStep, hcap, hemit]
        rw [hms]
        dsimp only
        refine ⟨rfl, ⟨a + 5 * d, rfl, by linarith, by linarith, ?_⟩,
          hamt1, ?_, ?_⟩
        · show ((tot + 0 : Nat) : ℚ) * 10 + (a + 5 * d) =
            (10 - (amt - 5 * d / 10)) * 10
          push_cast
          linarith [hacc]
        · intro hab
          by_cases hdie : amt - 5 * d / 10 ≤ 1 / 10
          · rw [if_pos hdie] at hab
            exact Bool.noConfusion hab
          · rw [if_neg hdie] at hab
            obtain ⟨hgt, heff⟩ := halive hab
            exact ⟨lt_of_not_le hdie, by linarith⟩
        · intro hab
          by_cases hdie : amt - 5 * d / 10 ≤ 1 / 10
          · exact hdie
          · rw [if_neg hdie] at hab
            have := hdead hab
            linarith

theorem runMining_inv (dts : List ℚ) :
    ∀ (st : NodeS × Nat) (S : ℚ), (∀ x ∈ dts, 0 ≤ x) → MineInv st S →
      MineInv (dts.foldl mineTick st) (S + dts.sum) := by
  induction dts with
  | nil =>
    intro st S _ h
    simpa using h
  | cons d rest ih =>
    intro st S hnn h
    rw [List.foldl_cons, List.sum_cons]
    have h1 := mineTick_inv st S d (hnn d (List.mem_cons_self _ _)) h
    have h2 := ih (mineTick st d) (S + d)
      (fun x hx => hnn x (List.mem_cons_of_mem _ hx)) h1
    have hassoc : S + (d + rest.sum) = S + d + rest.sum := by ring
    rw [hassoc]
    exact h2

theorem mineStart_inv : MineInv (c8Start, 0) 0 := by
  unfold MineInv c8Start
  dsimp only
  refine ⟨rfl, ⟨0, rfl, le_refl 0, by norm_num, by norm_num⟩, by norm_num,
    fun _ => ⟨by norm_num, by norm_num⟩, fun hab => Bool.noConfusion hab⟩

/-- C8 amended: a ResourceNode dies not exactly at amount 0 but as soon
as its amount is at most 0.1 after mining (or was already nonpositive on
entry) — see the counterexample; in the claim's scenario (amount 10,
yield_cost 10, one miner of efficiency 1) the node is no longer alive
once the offered effort 5 * sum(dt) reaches 100, and at every point the
miner has received exactly floor(A / yield_cost) whole items where
A = (10 - amount) * 10 is the total effort applied to the node. -/
theorem C8_resource_depletion (n : NodeS) (dt : ℚ) (dts : List ℚ)
    (hdts : ∀ x ∈ dts, 0 ≤ x) :
    ((n.update dt).1.is_alive = false ↔
      ((n.update dt).1.amount ≤ 1 / 10 ∨ n.is_alive = false)) ∧
    (5 * dts.sum ≥ 100 → (runMining dts).1.is_alive = false) ∧
    ((runMining dts).2 : Int) =
      ⌊(10 - (runMining dts).1.amount) * 10 / 10⌋ ∧
    0 ≤ (runMining dts).1.amount := by
  have hinv : MineInv (runMining dts) (0 + dts.sum) :=
    runMining_inv dts (c8Start, 0) 0 hdts mineStart_inv
  obtain ⟨hyc, ⟨a, hm, ha0, ha10, hacc⟩, hamt0, halive, hdead⟩ := hinv
  rw [zero_add] at halive
  refine ⟨?_, ?_, ?_, hamt0⟩
  · by_cases hent : n.amount ≤ 0
    · have hu : n.update dt = ({ n with is_alive := false }, []) := by
        unfold NodeS.update
        rw [if_pos hent]
      rw [hu]
      dsimp only
      exact ⟨fun _ => Or.inl (by linarith), fun _ => rfl⟩
    · have hu : n.update dt =
          ({ n with
              amount := (mineStep n.yield_cost dt n.amount n.miners).1
              miners := (mineStep n.yield_cost dt n.amount n.miners).2.1
              is_alive :=
                if (mineStep n.yield_cost dt n.amount n.miners).1 ≤ 1 / 10
                then false else n.is_alive },
           (mineStep n.yield_cost dt n.amount n.miners).2.2) := by
        unfold NodeS.update
        rw [if_neg hent]
      rw [hu]
      dsimp only
      by_cases hr : (mineStep n.yield_cost dt n.amount n.miners).1 ≤ 1 / 10
      · rw [if_pos hr]
        exact ⟨fun _ => Or.inl hr, fun _ => rfl⟩
      · rw [if_neg hr]
        constructor
        · intro hfa
          exact Or.inr hfa
        · intro hor
          rcases hor with h | h
          · exact absurd h hr
          · exact h
  · intro hsum
    by_contra hliv
    have htrue : (runMining dts).1.is_alive = true := by
      cases hx : (runMining dts).1.is_alive
      · exact absurd hx hliv
      · rfl
    obtain ⟨hgt, heff⟩ := halive htrue
    linarith
  · have hfl : ⌊(10 - (runMining dts).1.amount) * 10 / 10⌋ =
        ((runMining dts).2 : Int) := by
      rw [Int.floor_eq_iff]
      push_cast
      constructor <;> linarith
    exact hfl.symm

/-- Witness for C8 at the scenario start node and tick list
[10, 10, 1/2] (total effort 5 * 20.5 = 102.5 >= 100). -/
theorem C8_resource_depletion_witness :
    (∀ x ∈ [(10:ℚ), 10, 1 / 2], 0 ≤ x) ∧
    (((c8Start.update 1).1.is_alive = false ↔
       ((c8Start.update 1).1.amount ≤ 1 / 10 ∨ c8Start.is_alive = false)) ∧
     (5 * ([(10:ℚ), 10, 1 / 2]).sum ≥ 100 →
       (runMining [(10:ℚ), 10, 1 / 2]).1.is_alive = false) ∧
     ((runMining [(10:ℚ), 10, 1 / 2]).2 : Int) =
       ⌊(10 - (runMining [(10:ℚ), 10, 1 / 2]).1.amount) * 10 / 10⌋ ∧
     0 ≤ (runMining [(10:ℚ), 10, 1 / 2]).1.amount) :=
  ⟨by norm_num,
   C8_resource_depletion c8Start 1 [(10:ℚ), 10, 1 / 2] (by norm_num)⟩

/-! ## Herbivore behaviour (src/creatures/herbivore.py) -/

/-- Herbivore state fields read and written by Herbivore.behavior
(legacy path: no brain attached, not an RL agent).  Velocity is set by
flee_from / move_towards / the wander randomiser and involves a square
root; no claim depends on it and it is omitted.  The wander branch
draws a fresh direction and a fresh timer from random.uniform; the
fresh timer enters as the randTimer parameter. -/
structure HerbS where
  id : Nat
  pos_x : ℚ
  pos_y : ℚ
  energy : ℚ
  max_energy : ℚ
  vision_range : ℚ
  state : String
  eating_plant : Option Nat
  random_direction_timer : ℚ
  panic_timer : ℚ
  panic_enter_distance : ℚ
  panic_exit_distance : ℚ
  panic_min_duration : ℚ
  post_flee_no_eat_timer : ℚ
  deriving Repr, DecidableEq

/-- The panic-hysteresis timer update of Herbivore.behavior, driven by
the first element of nearby_predators ++ nearby_smarts (the code takes
predators[0], trusting — wrongly, see C3 — that sensor data is sorted):
a threat within panic_enter_distance resets the timer to
panic_min_duration; a threat within panic_exit_distance holds it at no
less than 0.5; otherwise it decays by dt toward 0.  Distances compare
squared (see the header). -/
def herbPanicTimer (h : HerbS) (closest : Option EntRec) (dt : ℚ) : ℚ :=
  match closest with
  | some c =>
      if 20 < h.energy ∧
          c.distance_sq ≤ h.panic_enter_distance * h.panic_enter_distance then
        h.panic_min_duration
      else if 20 < h.energy ∧
          c.distance_sq ≤ h.panic_exit_distance * h.panic_exit_distance then
        max h.panic_timer (1 / 2)
      else max 0 (h.panic_timer - dt)
  | none => max 0 (h.panic_timer - dt)

/-- The wander fallthrough (section 3 of Herbivore.behavior). -/
def herbWander (h : HerbS) (timer1 post1 dt randTimer : ℚ) : HerbS :=
  { h with
    panic_timer := timer1
    post_flee_no_eat_timer := post1
    random_direction_timer :=
      if h.random_direction_timer - dt ≤ 0 then randTimer
      else h.random_direction_timer - dt
    state := "idle" }

/-- Herbivore.behavior, legacy hardcoded path: sense, update the
post-flee and panic timers, flee when a threat is listed and the panic
timer is positive and energy exceeds 20; otherwise approach or eat the
first-listed plant; otherwise wander. -/
def herbBehavior (h : HerbS) (w : WorldS) (dt randTimer : ℚ) : HerbS :=
  let sensors := get_sensor_data h.id h.pos_x h.pos_y h.vision_range
    h.energy h.max_energy w
  let closest := (sensors.nearby_predators ++ sensors.nearby_smarts).head?
  let post1 := max 0 (h.post_flee_no_eat_timer - dt)
  let timer1 := herbPanicTimer h closest dt
  if closest.isSome ∧ 0 < timer1 ∧ 20 < h.energy then
    { h with
      panic_timer := timer1
      post_flee_no_eat_timer := post1
      eating_plant := none
      state := "fleeing" }
  else
    match sensors.nearby_plants.head? with
    | some cp =>
        if cp.distance_sq < 12 * 12 then
          match w.plants.find? (fun p => p.id = cp.id) with
          | some pobj =>
              if pobj.alive then
                { h with
                  panic_timer := timer1
                  post_flee_no_eat_timer := post1
                  eating_plant := some pobj.id
                  state := "eating" }
              else herbWander h timer1 post1 dt randTimer
          | none => herbWander h timer1 post1 dt randTimer
        else
          { h with
            panic_timer := timer1
            post_flee_no_eat_timer := post1
            eating_plant := none
            state := "searching" }
    | none => herbWander h timer1 post1 dt randTimer

theorem herbBehavior_panic_and_state (h : HerbS) (w : WorldS)
    (dt randTimer : ℚ) :
    (herbBehavior h w dt randTimer).panic_timer =
      herbPanicTimer h
        (((get_sensor_data h.id h.pos_x h.pos_y h.vision_range h.energy
            h.max_energy w).nearby_predators ++
          (get_sensor_data h.id h.pos_x h.pos_y h.vision_range h.energy
            h.max_energy w).nearby_smarts).head?) dt ∧
    ((herbBehavior h w dt randTimer).state = "fleeing" ↔
      ((((get_sensor_data h.id h.pos_x h.pos_y h.vision_range h.energy
            h.max_energy w).nearby_predators ++
         (get_sensor_data h.id h.pos_x h.pos_y h.vision_range h.energy
            h.max_energy w).nearby_smarts).head?).isSome ∧
       0 < herbPanicTimer h
        (((get_sensor_data h.id h.pos_x h.pos_y h.vision_range h.energy
            h.max_energy w).nearby_predators ++
          (get_sensor_data h.id h.pos_x h.pos_y h.vision_range h.energy
            h.max_energy w).nearby_smarts).head?) dt ∧
       20 < h.energy)) := by
  set S := get_sensor_data h.id h.pos_x h.pos_y h.vision_range h.energy
    h.max_energy w with hS
  set timer1 := herbPanicTimer h
    ((S.nearby_predators ++ S.nearby_smarts).head?) dt with htimer1
  unfold herbBehavior
  rw [← hS]
  by_cases hguard : ((S.nearby_predators ++ S.nearby_smarts).head?).isSome ∧
      0 < timer1 ∧ 20 < h.energy
  · rw [if_pos hguard]
    exact ⟨rfl, Iff.intro (fun _ => hguard) (fun _ => rfl)⟩
  · rw [if_neg hguard]
    rcases hhd : S.nearby_plants.head? with _ | cp
    · simp only [hhd]
      refine ⟨rfl, Iff.intro (fun hs => ?_) (fun hg => absurd hg hguard)⟩
      simp [herbWander] at hs
    · simp only [hhd]
      by_cases hnear : cp.distance_sq < 12 * 12
      · rw [if_pos hnear]
        rcases hfind : w.plants.find? (fun p => p.id = cp.id) with _ | pobj
        · simp only [hfind]
          refine ⟨rfl, Iff.intro (fun hs => ?_) (fun hg => absurd hg hguard)⟩
          simp [herbWander] at hs
        · simp only [hfind]
          by_cases hal : pobj.alive
          · rw [if_pos hal]
            refine ⟨rfl, Iff.intro (fun hs => ?_)
              (fun hg => absurd hg hguard)⟩
            simp at hs
          · rw [if_neg hal]
            refine ⟨rfl, Iff.intro (fun hs => ?_)
              (fun hg => absurd hg hguard)⟩
            simp [herbWander] at hs
      · rw [if_neg hnear]
        refine ⟨rfl, Iff.intro (fun hs => ?_) (fun hg => absurd hg hguard)⟩
        simp at hs

/-- C9 amended: the herbivore's panic hysteresis is driven by the
first-listed threat (predators then smarts, in world order — not the
nearest, see C3).  It enters the fleeing state whenever that threat is
within panic_enter_distance and energy exceeds 20 (timer reset to
panic_min_duration), but also already when the threat is merely within
panic_exit_distance (timer held at no less than 0.5) — entry does not
require a threat within panic_enter_distance, refuting that part of the
claim; with no threat listed, or with the threat beyond
panic_exit_distance, the timer decays by dt and the herbivore flees
exactly while a threat is listed, energy exceeds 20 and the decayed
timer is positive; it never flees with energy at most 20. -/
theorem C9_panic_hysteresis (h : HerbS) (w : WorldS) (dt randTimer : ℚ)
    (hmind : 0 < h.panic_min_duration)
    (h0e : 0 ≤ h.panic_enter_distance)
    (hee : h.panic_enter_distance ≤ h.panic_exit_distance) :
    (∀ r : EntRec,
      (((get_sensor_data h.id h.pos_x h.pos_y h.vision_range h.energy
          h.max_energy w).nearby_predators ++
        (get_sensor_data h.id h.pos_x h.pos_y h.vision_range h.energy
          h.max_energy w).nearby_smarts).head?) = some r →
      20 < h.energy →
      r.distance_sq ≤ h.panic_enter_distance * h.panic_enter_distance →
      (herbBehavior h w dt randTimer).state = "fleeing" ∧
      (herbBehavior h w dt randTimer).panic_timer = h.panic_min_duration) ∧
    (∀ r : EntRec,
      (((get_sensor_data h.id h.pos_x h.pos_y h.vision_range h.energy
          h.max_energy w).nearby_predators ++
        (get_sensor_data h.id h.pos_x h.pos_y h.vision_range h.energy
          h.max_energy w).nearby_smarts).head?) = some r →
      20 < h.energy →
      r.distance_sq ≤ h.panic_exit_distance * h.panic_exit_distance →
      (herbBehavior h w dt randTimer).state = "fleeing" ∧
      0 < (herbBehavior h w dt randTimer).panic_timer) ∧
    ((((get_sensor_data h.id h.pos_x h.pos_y h.vision_range h.energy
          h.max_energy w).nearby_predators ++
       (get_sensor_data h.id h.pos_x h.pos_y h.vision_range h.energy
          h.max_energy w).nearby_smarts).head?) = none →
      (herbBehavior h w dt randTimer).state ≠ "fleeing" ∧
      (herbBehavior h w dt randTimer).panic_timer =
        max 0 (h.panic_timer - dt)) ∧
    (h.energy ≤ 20 → (herbBehavior h w dt randTimer).state ≠ "fleeing") ∧
    (∀ r : EntRec,
      (((get_sensor_data h.id h.pos_x h.pos_y h.vision_range h.energy
          h.max_energy w).nearby_predators ++
        (get_sensor_data h.id h.pos_x h.pos_y h.vision_range h.energy
          h.max_energy w).nearby_smarts).head?) = some r →
      h.panic_exit_distance * h.panic_exit_distance < r.distance_sq →
      (herbBehavior h w dt randTimer).panic_timer =
        max 0 (h.panic_timer - dt) ∧
      ((herbBehavior h w dt randTimer).state = "fleeing" ↔
        20 < h.energy ∧ 0 < max 0 (h.panic_timer - dt))) := by
  obtain ⟨hpt, hflee⟩ := herbBehavior_panic_and_state h w dt randTimer
  refine ⟨?_, ?_, ?_, ?_, ?_⟩
  · intro r hc he hd
    rw [hc] at hpt hflee
    have ht1 : herbPanicTimer h (some r) dt = h.panic_min_duration := by
      unfold herbPanicTimer
      dsimp only
      rw [if_pos ⟨he, hd⟩]
    rw [ht1] at hpt hflee
    exact ⟨hflee.mpr ⟨rfl, hmind, he⟩, hpt⟩
  · intro r hc he hd
    rw [hc] at hpt hflee
    have ht1 : 0 < herbPanicTimer h (some r) dt := by
      unfold herbPanicTimer
      dsimp only
      split_ifs with h1 h2
      · exact hmind
      · exact lt_of_lt_of_le (by norm_num) (le_max_right _ _)
      · exact absurd ⟨he, hd⟩ h2
    refine ⟨hflee.mpr ⟨rfl, ht1, he⟩, ?_⟩
    rw [hpt]
    exact ht1
  · intro hc
    rw [hc] at hpt hflee
    refine ⟨fun hs => ?_, ?_⟩
    · have := (hflee.mp hs).1
      simp at this
    · rw [hpt]
      unfold herbPanicTimer
      rfl
  · intro he hs
    exact absurd (hflee.mp hs).2.2 (not_lt.mpr he)
  · intro r hc hd
    rw [hc] at hpt hflee
    have hent2 : h.panic_enter_distance * h.panic_enter_distance ≤
        h.panic_exit_distance * h.panic_exit_distance :=
      mul_self_le_mul_self h0e hee
    have ht1 : herbPanicTimer h (some r) dt = max 0 (h.panic_timer - dt) := by
      unfold herbPanicTimer
      dsimp only
      rw [if_neg, if_neg]
      · rintro ⟨-, hd2⟩
        linarith
      · rintro ⟨-, hd2⟩
        linarith
    rw [ht1] at hpt hflee
    refine ⟨hpt, Iff.intro (fun hs => ?_) (fun hg => ?_)⟩
    · obtain ⟨-, ht, he⟩ := hflee.mp hs
      exact ⟨he, ht⟩
    · exact hflee.mpr ⟨rfl, hg.2, hg.1⟩

/-- Herbivore used by the C9 counterexample: fresh panic timer 0,
energy 50, standard construction parameters (vision 60, panic distances
34 / 52, minimum duration 1.2). -/
def c9Herb : HerbS :=
  ⟨100, 0, 0, 50, 100, 60, "idle", none, 0, 0, 34, 52, 6 / 5, 0⟩

/-- World of the C9 counterexample: a single predator at distance 40
from the herbivore — outside panic_enter_distance 34, inside
panic_exit_distance 52. -/
def c9World : WorldS :=
  ⟨1200, 1200, [], [⟨1, "predator", 40, 0, 0, 0, 100, true⟩]⟩

/-- C9 counterexample: a herbivore that has never had a threat within
panic_enter_distance (its panic timer is 0 and the only threat stands
at distance 40 > 34) nevertheless enters the fleeing state in one
behavior step, because a threat within panic_exit_distance alone sets
the panic timer to 0.5 — refuting the claim that the fleeing state is
never entered unless a threat has come within panic_enter_distance. -/
theorem C9_panic_hysteresis_counterexample :
    (herbBehavior c9Herb c9World (1 / 100) 3).state = "fleeing" ∧
    c9Herb.panic_timer = 0 ∧
    (∀ en ∈ c9World.entities,
      c9Herb.panic_enter_distance * c9Herb.panic_enter_distance <
        distSq c9Herb.pos_x c9Herb.pos_y en.x en.y) := by
  refine ⟨?_, rfl, ?_⟩
  · norm_num [herbBehavior, herbPanicTimer, get_sensor_data, c9Herb,
      c9World, distSq, List.filterMap, List.head?]
  · intro en hen
    simp only [c9World, List.mem_singleton] at hen
    subst hen
    norm_num [c9Herb, distSq]

/-- Witness for C9 amended at the concrete herbivore and world of the
counterexample (dt = 1/100, fresh wander timer 3). -/
theorem C9_panic_hysteresis_witness :
    (0 < c9Herb.panic_min_duration ∧ 0 ≤ c9Herb.panic_enter_distance ∧
     c9Herb.panic_enter_distance ≤ c9Herb.panic_exit_distance) ∧
    ((∀ r : EntRec,
      (((get_sensor_data c9Herb.id c9Herb.pos_x c9Herb.pos_y
          c9Herb.vision_range c9Herb.energy c9Herb.max_energy
          c9World).nearby_predators ++
        (get_sensor_data c9Herb.id c9Herb.pos_x c9Herb.pos_y
          c9Herb.vision_range c9Herb.energy c9Herb.max_energy
          c9World).nearby_smarts).head?) = some r →
      20 < c9Herb.energy →
      r.distance_sq ≤
        c9Herb.panic_enter_distance * c9Herb.panic_enter_distance →
      (herbBehavior c9Herb c9World (1 / 100) 3).state = "fleeing" ∧
      (herbBehavior c9Herb c9World (1 / 100) 3).panic_timer =
        c9Herb.panic_min_duration) ∧
    (∀ r : EntRec,
      (((get_sensor_data c9Herb.id c9Herb.pos_x c9Herb.pos_y
          c9Herb.vision_range c9Herb.energy c9Herb.max_energy
          c9World).nearby_predators ++
        (get_sensor_data c9Herb.id c9Herb.pos_x c9Herb.pos_y
          c9Herb.vision_range c9Herb.energy c9Herb.max_energy
          c9World).nearby_smarts).head?) = some r →
      20 < c9Herb.energy →
      r.distance_sq ≤
        c9Herb.panic_exit_distance * c9Herb.panic_exit_distance →
      (herbBehavior c9Herb c9World (1 / 100) 3).state = "fleeing" ∧
      0 < (herbBehavior c9Herb c9World (1 / 100) 3).panic_timer) ∧
    ((((get_sensor_data c9Herb.id c9Herb.pos_x c9Herb.pos_y
          c9Herb.vision_range c9Herb.energy c9Herb.max_energy
          c9World).nearby_predators ++
       (get_sensor_data c9Herb.id c9Herb.pos_x c9Herb.pos_y
          c9Herb.vision_range c9Herb.energy c9Herb.max_energy
          c9World).nearby_smarts).head?) = none →
      (herbBehavior c9Herb c9World (1 / 100) 3).state ≠ "fleeing" ∧
      (herbBehavior c9Herb c9World (1 / 100) 3).panic_timer =
        max 0 (c9Herb.panic_timer - 1 / 100)) ∧
    (c9Herb.energy ≤ 20 →
      (herbBehavior c9Herb c9World (1 / 100) 3).state ≠ "fleeing") ∧
    (∀ r : EntRec,
      (((get_sensor_data c9Herb.id c9Herb.pos_x c9Herb.pos_y
          c9Herb.vision_range c9Herb.energy c9Herb.max_energy
          c9World).nearby_predators ++
        (get_sensor_data c9Herb.id c9Herb.pos_x c9Herb.pos_y
          c9Herb.vision_range c9Herb.energy c9Herb.max_energy
          c9World).nearby_smarts).head?) = some r →
      c9Herb.panic_exit_distance * c9Herb.panic_exit_distance <
        r.distance_sq →
      (herbBehavior c9Herb c9World (1 / 100) 3).panic_timer =
        max 0 (c9Herb.panic_timer - 1 / 100) ∧
      ((herbBehavior c9Herb c9World (1 / 100) 3).state = "fleeing" ↔
        20 < c9Herb.energy ∧ 0 < max 0 (c9Herb.panic_timer - 1 / 100)))) :=
  ⟨⟨by norm_num [c9Herb], by norm_num [c9Herb], by norm_num [c9Herb]⟩,
   C9_panic_hysteresis c9Herb c9World (1 / 100) 3 (by norm_num [c9Herb])
     (by norm_num [c9Herb]) (by norm_num [c9Herb])⟩

/-! ### Predator attack resolution (claim C10) -/

/-- Predator used by the C10 counterexample and witness: energy 80 of
200, damage 40, cooldown 0.2, timer 0 (ready to strike), so
get_damage = 40 * (0.3 + 1.2 * 0.4) = 31.2. -/
def c10Pred : PredS := ⟨80, 200, 40, 12, 1 / 5, 0, "hunting"⟩

/-- Plain herbivore prey used by the C10 witness. -/
def c10Prey : EntityS := ⟨"herbivore", 3, 0, 0, 0, 60, 130, 90, 100, true, 0⟩

/-- Armored smart prey used by the C10 counterexample and witness:
leather armor equipped, ITEM_DB defense 0.2. -/
def c10Smart : SmartS :=
  ⟨⟨"smart", 3, 0, 0, 0, 60, 130, 90, 100, true, 0⟩,
   some ItemT.leather_armor⟩

/-- C10 counterexample: predators attack smart creatures too (preys =
herbivores + smarts, and the auto-attack targets both types), and
SmartCreature.take_damage multiplies the incoming damage by
(1 - defense) before the base take_damage runs.  With leather armor
(defense 0.2) equipped, a landed attack of damage 31.2 drops the smart
prey's health by 0.8 * 31.2 = 24.96 (90 to 65.04, not 58.8) and its
energy by 0.4 * 31.2 = 12.48 (60 to 47.52, not 44.4), refuting the
claimed exact drops of damage and 0.5 * damage. -/
theorem C10_attack_resolution_counterexample :
    c10Pred.attack_timer ≤ 0 ∧
    (predatorAttack c10Pred (PreyS.smart c10Smart)).2.health ≠
      (PreyS.smart c10Smart).health - c10Pred.get_damage ∧
    (predatorAttack c10Pred (PreyS.smart c10Smart)).2.energy ≠
      (PreyS.smart c10Smart).energy - c10Pred.get_damage * (1 / 2) := by
  refine ⟨by norm_num [c10Pred], ?_, ?_⟩ <;>
    norm_num [predatorAttack, c10Pred, c10Smart, PredS.get_damage,
      PreyS.take_damage, SmartS.take_damage, SmartS.get_defense,
      EntityS.take_damage, PreyS.health, PreyS.energy, ITEM_DB_defense]

/-- C10 corrected: when the attack lands (prey matched, attack_timer
<= 0) the damage is attack_damage * (0.3 + 1.2 * energy / max_energy)
(the source clamps the energy ratio at 0 from below, which changes
nothing for the nonnegative energies of a live attacker); the attacker
always gains 1.5 * damage energy and resets attack_timer to
attack_cooldown; the prey takes the damage through its own take_damage
dispatch: a plain (herbivore) prey loses exactly damage health and
0.5 * damage energy, while a smart prey loses (1 - defense) * damage
health and 0.5 * (1 - defense) * damage energy, defense being the
equipped armor's ITEM_DB defense (0 with no armor).  While
attack_timer > 0 nothing changes for either side. -/
theorem C10_attack_resolution (p : PredS)
    (he : 0 ≤ p.energy) (hme : 0 < p.max_energy) :
    (p.get_damage =
      p.attack_damage * (3 / 10 + 12 / 10 * (p.energy / p.max_energy))) ∧
    (∀ prey : PreyS, p.attack_timer ≤ 0 →
      (predatorAttack p prey).1.energy =
        p.energy + p.get_damage * (3 / 2) ∧
      (predatorAttack p prey).1.attack_timer = p.attack_cooldown) ∧
    (∀ e : EntityS, p.attack_timer ≤ 0 →
      (predatorAttack p (PreyS.base e)).2.health =
        e.health - p.get_damage ∧
      (predatorAttack p (PreyS.base e)).2.energy =
        e.energy - p.get_damage * (1 / 2)) ∧
    (∀ s : SmartS, p.attack_timer ≤ 0 →
      (predatorAttack p (PreyS.smart s)).2.health =
        s.ent.health - p.get_damage * (1 - s.get_defense) ∧
      (predatorAttack p (PreyS.smart s)).2.energy =
        s.ent.energy - p.get_damage * (1 - s.get_defense) * (1 / 2)) ∧
    (∀ prey : PreyS, 0 < p.attack_timer →
      predatorAttack p prey = (p, prey)) := by
  have hratio : max 0 (p.energy / p.max_energy) = p.energy / p.max_energy :=
    max_eq_right (div_nonneg he hme.le)
  refine ⟨?_, ?_, ?_, ?_, ?_⟩
  · unfold PredS.get_damage
    rw [hratio]
    ring
  · intro prey ht
    unfold predatorAttack
    rw [if_pos ht]
    exact ⟨rfl, rfl⟩
  · intro e ht
    unfold predatorAttack
    rw [if_pos ht]
    exact ⟨rfl, rfl⟩
  · intro s ht
    unfold predatorAttack
    rw [if_pos ht]
    exact ⟨rfl, rfl⟩
  · intro prey ht
    unfold predatorAttack
    rw [if_neg (not_le.mpr ht)]

/-- Witness for C10 at a concrete predator, a plain herbivore prey and
an armored smart prey. -/
theorem C10_attack_resolution_witness :
    ((0:ℚ) ≤ c10Pred.energy ∧ 0 < c10Pred.max_energy) ∧
    ((c10Pred.get_damage =
       c10Pred.attack_damage *
         (3 / 10 + 12 / 10 * (c10Pred.energy / c10Pred.max_energy))) ∧
     (c10Pred.attack_timer ≤ 0 →
       (predatorAttack c10Pred (PreyS.smart c10Smart)).1.energy =
         c10Pred.energy + c10Pred.get_damage * (3 / 2) ∧
       (predatorAttack c10Pred (PreyS.smart c10Smart)).1.attack_timer =
         c10Pred.attack_cooldown) ∧
     (c10Pred.attack_timer ≤ 0 →
       (predatorAttack c10Pred (PreyS.base c10Prey)).2.health =
         c10Prey.health - c10Pred.get_damage ∧
       (predatorAttack c10Pred (PreyS.base c10Prey)).2.energy =
         c10Prey.energy - c10Pred.get_damage * (1 / 2)) ∧
     (c10Pred.attack_timer ≤ 0 →
       (predatorAttack c10Pred (PreyS.smart c10Smart)).2.health =
         c10Smart.ent.health -
           c10Pred.get_damage * (1 - c10Smart.get_defense) ∧
       (predatorAttack c10Pred (PreyS.smart c10Smart)).2.energy =
         c10Smart.ent.energy -
           c10Pred.get_damage * (1 - c10Smart.get_defense) * (1 / 2)) ∧
     (0 < c10Pred.attack_timer →
       predatorAttack c10Pred (PreyS.base c10Prey) =
         (c10Pred, PreyS.base c10Prey))) := by
  have h := C10_attack_resolution c10Pred (by norm_num [c10Pred])
    (by norm_num [c10Pred])
  exact ⟨⟨by norm_num [c10Pred], by norm_num [c10Pred]⟩,
    h.1, h.2.1 (PreyS.smart c10Smart), h.2.2.1 c10Prey,
    h.2.2.2.1 c10Smart, h.2.2.2.2 (PreyS.base c10Prey)⟩
